import Mathlib

/-!
Verification development for the ransomeye EDR core: a shallow embedding of
the signed-envelope ingestion endpoints, the immutable audit chain, the
retention enforcer, the orchestrator startup gates, the schema DDL extractor,
the deception deployer and the deception signal hashes, with theorems that
settle the frozen specification claims against the source.

Strings that cross the wire or the database are modelled as their byte
sequences (`Str := List Nat`, each entry a byte value); hashes are computed by
a full executable SHA-256 over such byte lists.
-/

set_option maxRecDepth 10000

namespace Ransomeye

/-- Byte strings: the byte-level view of every Rust `String`/`&[u8]` value. -/
abbrev Str := List Nat

/-- Byte sequence of an ASCII string literal. -/
def asciiBytes (s : String) : Str := s.data.map (fun c => c.toNat)

/-- 32-bit truncation, the `u32` wrap-around of the sha2 crate arithmetic. -/
def w32 (n : Nat) : Nat := n % 4294967296

/-- Right rotation of a 32-bit word. -/
def rotr (k x : Nat) : Nat := w32 ((x >>> k) + ((x % (2 ^ k)) <<< (32 - k)))

/-- Logical right shift of a 32-bit word. -/
def shr (k x : Nat) : Nat := x >>> k

/-- SHA-256 round constants, as decimal word values. -/
def sha256K : List Nat :=
  [1116352408, 1899447441, 3049323471, 3921009573, 961987163,
   1508970993, 2453635748, 2870763221, 3624381080, 310598401,
   607225278, 1426881987, 1925078388, 2162078206, 2614888103,
   3248222580, 3835390401, 4022224774, 264347078, 604807628,
   770255983, 1249150122, 1555081692, 1996064986, 2554220882,
   2821834349, 2952996808, 3210313671, 3336571891, 3584528711,
   113926993, 338241895, 666307205, 773529912, 1294757372,
   1396182291, 1695183700, 1986661051, 2177026350, 2456956037,
   2730485921, 2820302411, 3259730800, 3345764771, 3516065817,
   3600352804, 4094571909, 275423344, 430227734, 506948616,
   659060556, 883997877, 958139571, 1322822218, 1537002063,
   1747873779, 1955562222, 2024104815, 2227730452, 2361852424,
   2428436474, 2756734187, 3204031479, 3329325298]

/-- SHA-256 initial hash state, as decimal word values. -/
def sha256H0 : List Nat :=
  [1779033703, 3144134277, 1013904242, 2773480762,
   1359893119, 2600822924, 528734635, 1541459225]

/-- Big-endian bytes of a 64-bit value. -/
def be64 (n : Nat) : Str :=
  [w32 (n >>> 56) % 256, (n >>> 48) % 256, (n >>> 40) % 256, (n >>> 32) % 256,
   (n >>> 24) % 256, (n >>> 16) % 256, (n >>> 8) % 256, n % 256]

/-- SHA-256 message padding (append 0x80, zero fill to 56 mod 64, 64-bit length). -/
def sha256Pad (msg : Str) : Str :=
  let len := msg.length
  let zeros := (120 - (len + 1) % 64) % 64
  msg ++ [0x80] ++ List.replicate zeros 0 ++ be64 (8 * len)

/-- Group bytes into big-endian 32-bit words. -/
def bytesToWords : Str → List Nat
  | a :: b :: c :: d :: rest => (((a * 256 + b) * 256 + c) * 256 + d) :: bytesToWords rest
  | _ => []

/-- Split a byte list into 64-byte blocks (fuel-indexed structural recursion). -/
def toBlocksAux : Nat → Str → List Str
  | 0, _ => []
  | _ + 1, [] => []
  | k + 1, l => l.take 64 :: toBlocksAux k (l.drop 64)

/-- Split a padded message into 64-byte blocks. -/
def toBlocks (l : Str) : List Str := toBlocksAux (l.length / 64 + 1) l

/-- Append the next schedule word, `fuel` many times. -/
def sha256ExtendAux : Nat → List Nat → List Nat
  | 0, w => w
  | k + 1, w =>
    let n := w.length
    let g := fun i => w.getD i 0
    let s0 := (rotr 7 (g (n - 15))) ^^^ (rotr 18 (g (n - 15))) ^^^ (shr 3 (g (n - 15)))
    let s1 := (rotr 17 (g (n - 2))) ^^^ (rotr 19 (g (n - 2))) ^^^ (shr 10 (g (n - 2)))
    sha256ExtendAux k (w ++ [w32 (g (n - 16) + s0 + g (n - 7) + s1)])

/-- Extend the 16 message words to 64 schedule words. -/
def sha256Extend (w : List Nat) : List Nat := sha256ExtendAux 48 w

/-- One SHA-256 compression round. -/
def sha256Round (st : List Nat) (kw : Nat × Nat) : List Nat :=
  match st with
  | [a, b, c, d, e, f, g, h] =>
    let s1 := (rotr 6 e) ^^^ (rotr 11 e) ^^^ (rotr 25 e)
    let ch := (e &&& f) ^^^ ((4294967295 - e) &&& g)
    let t1 := w32 (h + s1 + ch + kw.1 + kw.2)
    let s0 := (rotr 2 a) ^^^ (rotr 13 a) ^^^ (rotr 22 a)
    let mj := (a &&& b) ^^^ (a &&& c) ^^^ (b &&& c)
    let t2 := w32 (s0 + mj)
    [w32 (t1 + t2), a, b, c, w32 (d + t1), e, f, g]
  | other => other

/-- Compress one 64-byte block into the running hash state. -/
def sha256Compress (hs : Str) (block : Str) : Str :=
  let ws := sha256Extend (bytesToWords block)
  let fin := (sha256K.zip ws).foldl sha256Round hs
  (hs.zip fin).map (fun p => w32 (p.1 + p.2))

/-- Big-endian bytes of a 32-bit word. -/
def wordBytes (n : Nat) : Str := [(n >>> 24) % 256, (n >>> 16) % 256, (n >>> 8) % 256, n % 256]

/-- Full SHA-256 over a byte list: the `sha2::Sha256` digest used everywhere
in the source for payload hashing and audit chaining. -/
def sha256 (msg : Str) : Str :=
  ((toBlocks (sha256Pad msg)).foldl sha256Compress sha256H0).flatMap wordBytes

/-- Lowercase hex digit byte for a nibble. -/
def hexDigit (n : Nat) : Nat := if n < 10 then 48 + n else 87 + n

/-- Lowercase hex encoding of bytes, as the Rust `format bytes as {:x}` does. -/
def bytesToHex (bs : Str) : Str := bs.flatMap (fun b => [hexDigit (b / 16), hexDigit (b % 16)])

example : bytesToHex (sha256 []) =
    asciiBytes "e3b0c44298fc1c149afbf4c8996fb92427ae41e4649b934ca495991b7852b855" := by decide

example : bytesToHex (sha256 (asciiBytes "abc")) =
    asciiBytes "ba7816bf8f01cfea414140de5dae2223b00361a396177a9cb410ff61f20015ad" := by decide

/-- JSON values, the model of `serde_json::Value`. Objects are association
lists; they stand for the `BTreeMap` of serde_json with entries kept in its
iteration (ascending key) order, which is also the serialization order. -/
inductive Json where
  | null
  | bool (b : Bool)
  | num (n : Int)
  | str (s : Str)
  | arr (xs : List Json)
  | obj (fields : List (Str × Json))

/-- Escape one byte the way serde_json escapes string contents. -/
def jsonEscapeByte (b : Nat) : Str :=
  if b = 34 then [92, 34]
  else if b = 92 then [92, 92]
  else if b = 8 then [92, 98]
  else if b = 9 then [92, 116]
  else if b = 10 then [92, 110]
  else if b = 12 then [92, 102]
  else if b = 13 then [92, 114]
  else if b < 32 then [92, 117, 48, 48, hexDigit (b / 16), hexDigit (b % 16)]
  else [b]

/-- Escape the bytes of a string body for JSON output. -/
def jsonEscape (s : Str) : Str := s.flatMap jsonEscapeByte

/-- Serialize a string as a JSON string literal (quotes plus escaped body),
the bytes `serde_json::to_string` produces for a Rust `String`. -/
def jsonStringBytes (s : Str) : Str := 34 :: jsonEscape s ++ [34]

/-- Decimal digit bytes of a natural number. -/
def natDecimal (n : Nat) : Str := (Nat.toDigits 10 n).map (fun c => c.toNat)

/-- Decimal byte rendering of an integer. -/
def intDecimal (n : Int) : Str :=
  if n < 0 then 45 :: natDecimal n.natAbs else natDecimal n.natAbs

mutual

/-- Compact JSON serialization to bytes: the model of
`serde_json::to_vec`/`to_string` on a `Value` (no spaces, escaped strings). -/
def jsonSerialize : Json → Str
  | .null => [110, 117, 108, 108]
  | .bool true => [116, 114, 117, 101]
  | .bool false => [102, 97, 108, 115, 101]
  | .num n => intDecimal n
  | .str s => jsonStringBytes s
  | .arr xs => 91 :: jsonSerializeArr xs ++ [93]
  | .obj fs => 123 :: jsonSerializeObj fs ++ [125]

/-- Serialize array elements, comma separated. -/
def jsonSerializeArr : List Json → Str
  | [] => []
  | [x] => jsonSerialize x
  | x :: rest => jsonSerialize x ++ [44] ++ jsonSerializeArr rest

/-- Serialize object fields, comma separated. -/
def jsonSerializeObj : List (Str × Json) → Str
  | [] => []
  | [(k, v)] => jsonStringBytes k ++ [58] ++ jsonSerialize v
  | (k, v) :: rest => jsonStringBytes k ++ [58] ++ jsonSerialize v ++ [44] ++ jsonSerializeObj rest

end

/-- Field lookup on a JSON object, the model of `Value::get` with a key. -/
def Json.get (j : Json) (key : Str) : Option Json :=
  match j with
  | .obj fs => (fs.find? (fun f => f.1 = key)).map (fun f => f.2)
  | _ => none

/-- String view of a JSON value, the model of `Value::as_str`. -/
def Json.asStr (j : Json) : Option Str :=
  match j with
  | .str s => some s
  | _ => none

/-- Value of one standard base64 alphabet character. -/
def b64Val (c : Nat) : Option Nat :=
  if 65 ≤ c ∧ c ≤ 90 then some (c - 65)
  else if 97 ≤ c ∧ c ≤ 122 then some (c - 71)
  else if 48 ≤ c ∧ c ≤ 57 then some (c + 4)
  else if c = 43 then some 62
  else if c = 47 then some 63
  else none

/-- Strict standard base64 decoding with required canonical padding: the model
of `base64::engine::general_purpose::STANDARD.decode`. -/
def base64Decode : Str → Option Str
  | [] => some []
  | c1 :: c2 :: c3 :: c4 :: rest =>
    match b64Val c1, b64Val c2 with
    | some v1, some v2 =>
      if c3 = 61 then
        if c4 = 61 ∧ rest = [] ∧ v2 % 16 = 0 then some [v1 * 4 + v2 / 16] else none
      else
        match b64Val c3 with
        | some v3 =>
          if c4 = 61 then
            if rest = [] ∧ v3 % 4 = 0 then some [v1 * 4 + v2 / 16, v2 % 16 * 16 + v3 / 4]
            else none
          else
            match b64Val c4 with
            | some v4 =>
              (base64Decode rest).map
                (fun bs => (v1 * 4 + v2 / 16) :: (v2 % 16 * 16 + v3 / 4) :: (v3 % 4 * 64 + v4) :: bs)
            | none => none
        | none => none
    | _, _ => none
  | _ => none

example : base64Decode (asciiBytes "AAAA") = some [0, 0, 0] := by decide
example : base64Decode (asciiBytes "aGk=") = some (asciiBytes "hi") := by decide
example : base64Decode (asciiBytes "a!b~") = none := by decide

/-- Value of one hex digit (either case). -/
def hexVal (c : Nat) : Option Nat :=
  if 48 ≤ c ∧ c ≤ 57 then some (c - 48)
  else if 97 ≤ c ∧ c ≤ 102 then some (c - 87)
  else if 65 ≤ c ∧ c ≤ 70 then some (c - 55)
  else none

/-- Hex decoding of a byte string, the model of `hex::decode`. -/
def hexDecode : Str → Option Str
  | [] => some []
  | a :: b :: rest =>
    match hexVal a, hexVal b with
    | some va, some vb => (hexDecode rest).map (fun bs => (va * 16 + vb) :: bs)
    | _, _ => none
  | _ => none

/-- Hex decoding with empty-vector fallback, the `unwrap_or_default` form the
dpi handler applies to the transmitted payload hash. -/
def hexDecodeOrEmpty (s : Str) : Str := (hexDecode s).getD []

/-- Decimal digit test on a byte. -/
def isDigitByte (c : Nat) : Bool := 48 ≤ c ∧ c ≤ 57

/-- Hex digit test on a byte. -/
def isHexByte (c : Nat) : Bool :=
  isDigitByte c ∨ (97 ≤ c ∧ c ≤ 102) ∨ (65 ≤ c ∧ c ≤ 70)

/-- Two digit bytes as a number, for range checks. -/
def twoDigits (a b : Nat) : Nat := (a - 48) * 10 + (b - 48)

/-- Time zone tail of an RFC 3339 timestamp: Z or a signed HH:MM offset. -/
def tzOk : Str → Bool
  | [c] => c = 90 ∨ c = 122
  | [sg, a, b, 58, c, d] =>
    (sg = 43 ∨ sg = 45) ∧ isDigitByte a ∧ isDigitByte b ∧ isDigitByte c ∧ isDigitByte d ∧
      twoDigits a b < 24 ∧ twoDigits c d < 60
  | _ => false

/-- Fraction-then-zone tail after the seconds field. -/
def fracTzOk : Str → Bool
  | 46 :: rest =>
    (rest.takeWhile isDigitByte) ≠ [] ∧ tzOk (rest.dropWhile isDigitByte)
  | rest => tzOk rest

/-- Model of `chrono::DateTime::parse_from_rfc3339` as a validity check: full
date, T separator, time, optional fraction and a zone designator. Day ranges
are simplified to 1..31 for every month; the claims exercise ordinary dates. -/
def rfc3339Ok (s : Str) : Bool :=
  match s with
  | y1 :: y2 :: y3 :: y4 :: 45 :: mo1 :: mo2 :: 45 :: d1 :: d2 :: t ::
      h1 :: h2 :: 58 :: mi1 :: mi2 :: 58 :: s1 :: s2 :: rest =>
    isDigitByte y1 ∧ isDigitByte y2 ∧ isDigitByte y3 ∧ isDigitByte y4 ∧
    isDigitByte mo1 ∧ isDigitByte mo2 ∧ 1 ≤ twoDigits mo1 mo2 ∧ twoDigits mo1 mo2 ≤ 12 ∧
    isDigitByte d1 ∧ isDigitByte d2 ∧ 1 ≤ twoDigits d1 d2 ∧ twoDigits d1 d2 ≤ 31 ∧
    (t = 84 ∨ t = 116) ∧
    isDigitByte h1 ∧ isDigitByte h2 ∧ twoDigits h1 h2 < 24 ∧
    isDigitByte mi1 ∧ isDigitByte mi2 ∧ twoDigits mi1 mi2 < 60 ∧
    isDigitByte s1 ∧ isDigitByte s2 ∧ twoDigits s1 s2 ≤ 60 ∧
    fracTzOk rest
  | _ => false

example : rfc3339Ok (asciiBytes "2024-01-02T03:04:05Z") = true := by decide
example : rfc3339Ok (asciiBytes "2024-01-02 03:04") = false := by decide

/-- Split a byte string on a separator byte. -/
def splitOnByte (b : Nat) : Str → List Str
  | [] => [[]]
  | c :: rest =>
    if c = b then [] :: splitOnByte b rest
    else
      match splitOnByte b rest with
      | h :: t => (c :: h) :: t
      | [] => [[c]]

/-- Model of `uuid::Uuid::parse_str` as a validity check: hyphenated
8-4-4-4-12 hex groups or the 32-hex simple form (urn and braced forms, which
the library also accepts, are omitted; the claims do not use them). -/
def uuidOk (s : Str) : Bool :=
  (s.length = 32 ∧ s.all (fun c => isHexByte c)) ∨
  ((splitOnByte 45 s).map List.length = [8, 4, 4, 4, 12] ∧
    (splitOnByte 45 s).all (fun p => p.all (fun c => isHexByte c)))

example : uuidOk (asciiBytes "123e4567-e89b-12d3-a456-426614174000") = true := by decide
example : uuidOk (asciiBytes "not-a-uuid") = false := by decide

/-- Wire body of POST /ingest/linux and /ingest/dpi (http_server.rs). -/
structure SignedEvent where
  envelope : Json
  payload_hash : Str
  signature : Str
  signer_id : Str

/-- Row of the agents table, the columns the ingest server touches. -/
structure AgentRow where
  agent_id : Nat
  agent_type : Str
  host_hostname : Str
  first_seen_at : Nat
  last_seen_at : Nat
  is_active : Bool
deriving DecidableEq

/-- Row of raw_events, the columns written by the ingest server. -/
structure RawEventRow where
  source_type : Str
  source_agent_id : Nat
  observed_at : Str
  event_name : Str
  payload_json : Json
  payload_sha256 : Str

/-- Row of linux_agent_telemetry, the columns the claims inspect. The
required INSERT leaves payload_sha256 and payload unset; the optional UPDATE
fills them. -/
structure LinuxTelemetryRow where
  agent_id : Nat
  source_message_id : Str
  source_component_identity : Str
  source_signature_b64 : Str
  source_data_hash_hex : Str
  observed_at : Str
  event_name : Str
  payload_sha256 : Option Str
  payload : Option Json

/-- Row of dpi_probe_telemetry, the columns the claims inspect. -/
structure DpiTelemetryRow where
  agent_id : Nat
  source_message_id : Str
  source_component_identity : Str
  source_signature_b64 : Str
  source_data_hash_hex : Str
  observed_at : Str
  payload_sha256 : Str
  payload : Json

/-- Database state visible to the ingest server. -/
structure IngestDb where
  agents : List AgentRow
  raw_events : List RawEventRow
  linux_agent_telemetry : List LinuxTelemetryRow
  dpi_probe_telemetry : List DpiTelemetryRow

/-- Statements the handlers issue, in issue order, for ordering claims. -/
inductive DbOp where
  | beginTx
  | commitTx
  | rollbackTx
  | selectAgent
  | updateAgentLastSeen (agent_id : Nat)
  | insertAgent (agent_id : Nat)
  | insertRawEvents (source_type : Str) (payload_sha256 : Str)
  | insertLinuxTelemetry (source_data_hash_hex : Str)
  | updateLinuxTelemetry (payload_sha256 : Option Str)
  | insertDpiTelemetry (payload_sha256 : Str) (source_data_hash_hex : Str)
deriving DecidableEq

/-- HTTP outcome of a handler. -/
inductive HttpStatus where
  | ok (message_id : Str)
  | badRequest
  | internalServerError
deriving DecidableEq

/-- Result of one handler invocation: response, resulting database state and
the ordered statement trace. -/
structure HandlerOut where
  status : HttpStatus
  db : IngestDb
  trace : List DbOp

/-- Valid values of the event_source_type enum accepted by
get_or_create_agent. -/
def valid_types : List Str :=
  [asciiBytes "linux_agent", asciiBytes "windows_agent", asciiBytes "dpi_probe",
   asciiBytes "core_engine", asciiBytes "ai_core", asciiBytes "alert_engine",
   asciiBytes "policy_engine", asciiBytes "correlation_engine", asciiBytes "llm",
   asciiBytes "response_engine", asciiBytes "forensic_engine", asciiBytes "unknown"]

/-- Model of get_or_create_agent (http_server.rs:650): select the agent by
host_hostname and agent_type; touch last_seen_at when found, otherwise insert
a fresh active row. The fresh v4 uuid is the fresh_agent_id parameter and the
database clock is the now parameter. -/
def get_or_create_agent (db : IngestDb) (component_identity : Str) (agent_type : Str)
    (fresh_agent_id : Nat) (now : Nat) : Option (Nat × IngestDb × List DbOp) :=
  if agent_type ∉ valid_types then none
  else
    match db.agents.find? (fun a => a.host_hostname = component_identity ∧ a.agent_type = agent_type) with
    | some row =>
      let agents := db.agents.map
        (fun a => if a.agent_id = row.agent_id then { a with last_seen_at := now } else a)
      some (row.agent_id, { db with agents := agents },
        [DbOp.selectAgent, DbOp.updateAgentLastSeen row.agent_id])
    | none =>
      let fresh : AgentRow :=
        { agent_id := fresh_agent_id, agent_type := agent_type,
          host_hostname := component_identity, first_seen_at := now,
          last_seen_at := now, is_active := true }
      some (fresh_agent_id, { db with agents := db.agents ++ [fresh] },
        [DbOp.selectAgent, DbOp.insertAgent fresh_agent_id])

/-- Model of handle_linux_ingest (http_server.rs:104). Field and envelope
validation, base64 decode of the signature (the only signature check in the
source), agent resolution, uuid parse of event_id, then a transaction that
inserts raw_events keyed by the sha256 of the serialized envelope, inserts
the required telemetry columns, applies the optional UPDATE and commits. The
database oracle always answers writes with success (failure of the required
writes only rolls back and maps to 500 in the source); the generated nonce
and fresh agent uuid enter as parameters. -/
def handle_linux_ingest (payload : SignedEvent) (db : IngestDb)
    (fresh_agent_id : Nat) (now : Nat) : HandlerOut :=
  if payload.signature = [] then ⟨.badRequest, db, []⟩
  else if payload.payload_hash = [] then ⟨.badRequest, db, []⟩
  else if payload.signer_id = [] then ⟨.badRequest, db, []⟩
  else
    match base64Decode payload.signature with
    | none => ⟨.badRequest, db, []⟩
    | some _ =>
      match (payload.envelope.get (asciiBytes "event_id")).bind Json.asStr with
      | none => ⟨.badRequest, db, []⟩
      | some message_id =>
        match (payload.envelope.get (asciiBytes "timestamp")).bind Json.asStr with
        | none => ⟨.badRequest, db, []⟩
        | some timestamp_str =>
          if rfc3339Ok timestamp_str = false then ⟨.badRequest, db, []⟩
          else
            match (payload.envelope.get (asciiBytes "component_id")).bind Json.asStr with
            | none => ⟨.badRequest, db, []⟩
            | some component_id =>
              match payload.envelope.get (asciiBytes "data") with
              | none => ⟨.badRequest, db, []⟩
              | some data =>
                let event_name :=
                  ((data.get (asciiBytes "event_category")).bind Json.asStr).getD
                    (asciiBytes "unknown")
                match get_or_create_agent db component_id (asciiBytes "linux_agent")
                    fresh_agent_id now with
                | none => ⟨.internalServerError, db, []⟩
                | some (agent_id, db1, agent_ops) =>
                  if uuidOk message_id = false then ⟨.badRequest, db1, agent_ops⟩
                  else
                    let envelope_payload_sha256 := sha256 (jsonSerialize payload.envelope)
                    let data_payload_sha256 := sha256 (jsonSerialize data)
                    let raw_row : RawEventRow :=
                      { source_type := asciiBytes "linux_agent", source_agent_id := agent_id,
                        observed_at := timestamp_str, event_name := event_name,
                        payload_json := payload.envelope,
                        payload_sha256 := envelope_payload_sha256 }
                    let typed_row : LinuxTelemetryRow :=
                      { agent_id := agent_id, source_message_id := message_id,
                        source_component_identity := component_id,
                        source_signature_b64 := payload.signature,
                        source_data_hash_hex := payload.payload_hash,
                        observed_at := timestamp_str, event_name := event_name,
                        payload_sha256 := some data_payload_sha256, payload := some data }
                    let db2 :=
                      { db1 with raw_events := db1.raw_events ++ [raw_row],
                                 linux_agent_telemetry := db1.linux_agent_telemetry ++ [typed_row] }
                    ⟨.ok message_id, db2,
                      agent_ops ++
                        [DbOp.beginTx,
                         DbOp.insertRawEvents (asciiBytes "linux_agent") envelope_payload_sha256,
                         DbOp.insertLinuxTelemetry payload.payload_hash,
                         DbOp.updateLinuxTelemetry (some data_payload_sha256),
                         DbOp.commitTx]⟩

/-- Model of handle_dpi_ingest (http_server.rs:440). Same validation steps,
then a bare INSERT into dpi_probe_telemetry whose payload_sha256 is the
hex-decoded transmitted hash, followed by an untransacted INSERT into
raw_events keyed by the sha256 of the serialized data field, whose result the
source discards. The raw_insert_ok oracle says whether that discarded insert
succeeded; no transaction statement is ever issued. -/
def handle_dpi_ingest (payload : SignedEvent) (db : IngestDb)
    (fresh_agent_id : Nat) (now : Nat) (raw_insert_ok : Bool) : HandlerOut :=
  if payload.signature = [] then ⟨.badRequest, db, []⟩
  else if payload.payload_hash = [] then ⟨.badRequest, db, []⟩
  else if payload.signer_id = [] then ⟨.badRequest, db, []⟩
  else
    match base64Decode payload.signature with
    | none => ⟨.badRequest, db, []⟩
    | some _ =>
      match (payload.envelope.get (asciiBytes "event_id")).bind Json.asStr with
      | none => ⟨.badRequest, db, []⟩
      | some message_id =>
        match (payload.envelope.get (asciiBytes "timestamp")).bind Json.asStr with
        | none => ⟨.badRequest, db, []⟩
        | some timestamp_str =>
          if rfc3339Ok timestamp_str = false then ⟨.badRequest, db, []⟩
          else
            match (payload.envelope.get (asciiBytes "component_id")).bind Json.asStr with
            | none => ⟨.badRequest, db, []⟩
            | some component_id =>
              match payload.envelope.get (asciiBytes "data") with
              | none => ⟨.badRequest, db, []⟩
              | some data =>
                match get_or_create_agent db component_id (asciiBytes "dpi_probe")
                    fresh_agent_id now with
                | none => ⟨.internalServerError, db, []⟩
                | some (agent_id, db1, agent_ops) =>
                  if uuidOk message_id = false then ⟨.badRequest, db1, agent_ops⟩
                  else
                    let dpi_payload_sha256 := hexDecodeOrEmpty payload.payload_hash
                    let typed_row : DpiTelemetryRow :=
                      { agent_id := agent_id, source_message_id := message_id,
                        source_component_identity := component_id,
                        source_signature_b64 := payload.signature,
                        source_data_hash_hex := payload.payload_hash,
                        observed_at := timestamp_str,
                        payload_sha256 := dpi_payload_sha256, payload := data }
                    let raw_payload_sha256 := sha256 (jsonSerialize data)
                    let raw_row : RawEventRow :=
                      { source_type := asciiBytes "dpi_probe", source_agent_id := agent_id,
                        observed_at := timestamp_str, event_name := asciiBytes "flow",
                        payload_json := data, payload_sha256 := raw_payload_sha256 }
                    let db2 :=
                      { db1 with dpi_probe_telemetry := db1.dpi_probe_telemetry ++ [typed_row],
                                 raw_events :=
                                   if raw_insert_ok then db1.raw_events ++ [raw_row]
                                   else db1.raw_events }
                    ⟨.ok message_id, db2,
                      agent_ops ++
                        [DbOp.insertDpiTelemetry dpi_payload_sha256 payload.payload_hash,
                         DbOp.insertRawEvents (asciiBytes "dpi_probe") raw_payload_sha256]⟩

/-- Numeric tag of a statement kind, for stating trace shapes uniformly. -/
def opTag : DbOp → Nat
  | .beginTx => 0
  | .commitTx => 1
  | .rollbackTx => 2
  | .selectAgent => 3
  | .updateAgentLastSeen _ => 4
  | .insertAgent _ => 5
  | .insertRawEvents _ _ => 6
  | .insertLinuxTelemetry _ => 7
  | .updateLinuxTelemetry _ => 8
  | .insertDpiTelemetry _ _ => 9

/-- Agent resolution issues exactly a select plus one write, and never touches
the event tables. -/
theorem get_or_create_agent_spec (db : IngestDb) (c t : Str) (fid now aid : Nat)
    (db1 : IngestDb) (ops : List DbOp)
    (h : get_or_create_agent db c t fid now = some (aid, db1, ops)) :
    (ops.map opTag = [3, 4] ∨ ops.map opTag = [3, 5]) ∧
      db1.raw_events = db.raw_events ∧
      db1.linux_agent_telemetry = db.linux_agent_telemetry ∧
      db1.dpi_probe_telemetry = db.dpi_probe_telemetry := by
  unfold get_or_create_agent at h
  split at h
  · exact absurd h (by simp)
  · split at h
    · simp only [Option.some.injEq, Prod.mk.injEq] at h
      obtain ⟨-, h2, h3⟩ := h
      subst h2; subst h3
      refine ⟨Or.inl (by simp [opTag]), rfl, rfl, rfl⟩
    · simp only [Option.some.injEq, Prod.mk.injEq] at h
      obtain ⟨-, h2, h3⟩ := h
      subst h2; subst h3
      refine ⟨Or.inr (by simp [opTag]), rfl, rfl, rfl⟩

/-- Concrete data field of the test envelope. -/
def data0 : Json := .obj [(asciiBytes "event_category", .str (asciiBytes "process_exec"))]

/-- Test event id, a valid hyphenated uuid. -/
def msgId0 : Str := asciiBytes "123e4567-e89b-12d3-a456-426614174000"

/-- Concrete well-formed envelope (keys in serde_json BTreeMap order). -/
def env0 : Json := .obj
  [(asciiBytes "component_id", .str (asciiBytes "host-1")),
   (asciiBytes "data", data0),
   (asciiBytes "event_id", .str msgId0),
   (asciiBytes "timestamp", .str (asciiBytes "2024-01-02T03:04:05Z"))]

/-- Concrete signed event whose transmitted payload_hash is the two bytes 00,
which is not the sha256 of any serialization of the envelope, and whose
signature is the base64 text AAAA, which decodes to three zero bytes and
hence is not an Ed25519 signature (those are exactly 64 bytes). -/
def req0 : SignedEvent :=
  { envelope := env0, payload_hash := asciiBytes "00",
    signature := asciiBytes "AAAA", signer_id := asciiBytes "signer-1" }

/-- Empty ingest database. -/
def emptyIngestDb : IngestDb :=
  { agents := [], raw_events := [], linux_agent_telemetry := [], dpi_probe_telemetry := [] }

example : (handle_linux_ingest req0 emptyIngestDb 1 100).status = .ok msgId0 := by decide

/-- C1: the claim says both ingest endpoints recompute SHA-256 over the
canonical envelope bytes and reject a request whose transmitted payload_hash
differs from the recomputed hash. The source instead trusts the transmitted
hash (http_server.rs:129 and 458) and never compares: the concrete request
req0, whose payload_hash is the two bytes 00 while the recomputed hash of its
canonical envelope bytes is a different 64-hex-byte digest, is accepted with
200 by both endpoints. -/
theorem spec_C1_accepts_unverified_payload_hash :
    (handle_linux_ingest req0 emptyIngestDb 1 100).status = .ok msgId0 ∧
    (handle_dpi_ingest req0 emptyIngestDb 1 100 true).status = .ok msgId0 ∧
    bytesToHex (sha256 (jsonSerialize req0.envelope)) ≠ req0.payload_hash := by
  decide

/-- C2: the claim says both ingest endpoints verify the transmitted Ed25519
signature for signer_id against the trust store and never accept an event
whose signature does not verify. The source only base64-decodes the signature
(http_server.rs:136 and 465) and consults no trust store: the concrete
request req0, whose signature decodes to the three bytes 0 0 0 and therefore
is not an Ed25519 signature under any key (Ed25519 signatures are exactly 64
bytes), is accepted with 200 by both endpoints. -/
theorem spec_C2_accepts_unverifiable_signature :
    (handle_linux_ingest req0 emptyIngestDb 1 100).status = .ok msgId0 ∧
    (handle_dpi_ingest req0 emptyIngestDb 1 100 true).status = .ok msgId0 ∧
    base64Decode req0.signature = some [0, 0, 0] ∧
    ((base64Decode req0.signature).getD []).length ≠ 64 := by
  decide

/-- Concrete request identical to req0 except that event_id is not a uuid. -/
def reqBadUuid : SignedEvent :=
  { envelope := .obj
      [(asciiBytes "component_id", .str (asciiBytes "host-1")),
       (asciiBytes "data", data0),
       (asciiBytes "event_id", .str (asciiBytes "not-a-uuid")),
       (asciiBytes "timestamp", .str (asciiBytes "2024-01-02T03:04:05Z"))],
    payload_hash := asciiBytes "00",
    signature := asciiBytes "AAAA", signer_id := asciiBytes "signer-1" }

/-- C10: on POST /ingest/linux, agent resolution runs before event_id is
parsed as a uuid, so a request rejected 400 for an invalid event_id still
returns with the database state produced by get_or_create_agent; concretely,
reqBadUuid against the empty database yields 400 while a fresh active agents
row has been persisted. -/
theorem spec_C10_agent_persisted_before_uuid_check :
    (∀ (payload : SignedEvent) (db : IngestDb) (fid now : Nat) (mid ts cid : Str) (data : Json),
      payload.signature ≠ [] → payload.payload_hash ≠ [] → payload.signer_id ≠ [] →
      (base64Decode payload.signature).isSome = true →
      (payload.envelope.get (asciiBytes "event_id")).bind Json.asStr = some mid →
      (payload.envelope.get (asciiBytes "timestamp")).bind Json.asStr = some ts →
      rfc3339Ok ts = true →
      (payload.envelope.get (asciiBytes "component_id")).bind Json.asStr = some cid →
      payload.envelope.get (asciiBytes "data") = some data →
      uuidOk mid = false →
      ∃ aid db1 ops,
        get_or_create_agent db cid (asciiBytes "linux_agent") fid now = some (aid, db1, ops) ∧
        handle_linux_ingest payload db fid now = ⟨.badRequest, db1, ops⟩) ∧
    (handle_linux_ingest reqBadUuid emptyIngestDb 1 100).status = .badRequest ∧
    (handle_linux_ingest reqBadUuid emptyIngestDb 1 100).db.agents =
      [{ agent_id := 1, agent_type := asciiBytes "linux_agent",
         host_hostname := asciiBytes "host-1", first_seen_at := 100,
         last_seen_at := 100, is_active := true }] := by
  refine ⟨?_, by decide, by decide⟩
  intro payload db fid now mid ts cid data hsig hhash hsigner hb64 hmid hts hrfc hcid hdata huuid
  obtain ⟨sb, hsb⟩ := Option.isSome_iff_exists.mp hb64
  have hvalid : get_or_create_agent db cid (asciiBytes "linux_agent") fid now ≠ none := by
    unfold get_or_create_agent
    split
    · rename_i hmem
      exact absurd (show asciiBytes "linux_agent" ∈ valid_types by decide) hmem
    · split <;> simp
  obtain ⟨⟨aid, db1, ops⟩, hag⟩ := Option.ne_none_iff_exists.mp hvalid
  refine ⟨aid, db1, ops, hag.symm, ?_⟩
  unfold handle_linux_ingest
  rw [if_neg hsig, if_neg hhash, if_neg hsigner, hsb]
  simp [hmid, hts, hrfc, hcid, hdata, ← hag, huuid]

/-- Closed instance of the C10 theorem: reqBadUuid against the empty database
resolves the agent and then fails the uuid parse. -/
theorem spec_C10_witness :
    ∃ aid db1 ops,
      get_or_create_agent emptyIngestDb (asciiBytes "host-1") (asciiBytes "linux_agent") 1 100 =
        some (aid, db1, ops) ∧
      handle_linux_ingest reqBadUuid emptyIngestDb 1 100 = ⟨.badRequest, db1, ops⟩ :=
  spec_C10_agent_persisted_before_uuid_check.1 reqBadUuid emptyIngestDb 1 100
    (asciiBytes "not-a-uuid") (asciiBytes "2024-01-02T03:04:05Z") (asciiBytes "host-1") data0
    (by decide) (by decide) (by decide) (by decide) (by decide) (by decide) (by decide)
    (by decide) rfl (by decide)

/-- C3 fails on the dpi endpoint at the concrete accepted request req0: the
statement trace is select-agent, insert-agent, typed insert, raw insert (tags
3 5 9 6), so the typed insert precedes the raw insert and no transaction
statement is issued; the persisted raw and typed hashes differ; and when the
discarded raw insert fails, the typed row persists alone. The linux endpoint
also violates the equal-hash conjunct: its raw and typed rows carry different
payload_sha256 values. -/
theorem spec_C3_counterexample :
    (handle_dpi_ingest req0 emptyIngestDb 1 100 true).trace.map opTag = [3, 5, 9, 6] ∧
    (handle_dpi_ingest req0 emptyIngestDb 1 100 true).db.raw_events.map
        (fun r => r.payload_sha256) ≠
      (handle_dpi_ingest req0 emptyIngestDb 1 100 true).db.dpi_probe_telemetry.map
        (fun r => r.payload_sha256) ∧
    (handle_dpi_ingest req0 emptyIngestDb 1 100 false).status = .ok msgId0 ∧
    (handle_dpi_ingest req0 emptyIngestDb 1 100 false).db.raw_events.length = 0 ∧
    (handle_dpi_ingest req0 emptyIngestDb 1 100 false).db.dpi_probe_telemetry.length = 1 ∧
    (handle_linux_ingest req0 emptyIngestDb 1 100).db.raw_events.map
        (fun r => r.payload_sha256) ≠
      (handle_linux_ingest req0 emptyIngestDb 1 100).db.linux_agent_telemetry.map
        (fun r => r.payload_sha256.getD []) := by
  decide

/-- C3 amended: on the linux endpoint every accepted request appends exactly
one raw_events row and one typed row inside one transaction, raw insert
before typed insert before commit, but the raw row hashes the serialized
envelope while the typed row hashes the serialized data field (the
transmitted hash only lands in source_data_hash_hex), so the hashes are not
equal in general; on the dpi endpoint the typed insert precedes the raw
insert, no transaction statements are issued, the typed row stores the
hex-decoded transmitted hash while the raw row hashes the serialized data
field, and a failed raw insert is ignored, leaving the typed row alone. -/
theorem spec_C3_amended :
    (∀ (payload : SignedEvent) (db : IngestDb) (fid now : Nat) (mid : Str),
      (handle_linux_ingest payload db fid now).status = .ok mid →
      ∃ data,
        payload.envelope.get (asciiBytes "data") = some data ∧
        ((handle_linux_ingest payload db fid now).trace.map opTag = [3, 4, 0, 6, 7, 8, 1] ∨
         (handle_linux_ingest payload db fid now).trace.map opTag = [3, 5, 0, 6, 7, 8, 1]) ∧
        (handle_linux_ingest payload db fid now).db.raw_events.map (fun r => r.payload_sha256) =
          db.raw_events.map (fun r => r.payload_sha256) ++
            [sha256 (jsonSerialize payload.envelope)] ∧
        (handle_linux_ingest payload db fid now).db.linux_agent_telemetry.map
            (fun r => (r.source_data_hash_hex, r.payload_sha256)) =
          db.linux_agent_telemetry.map (fun r => (r.source_data_hash_hex, r.payload_sha256)) ++
            [(payload.payload_hash, some (sha256 (jsonSerialize data)))]) ∧
    (∀ (payload : SignedEvent) (db : IngestDb) (fid now : Nat) (rawOk : Bool) (mid : Str),
      (handle_dpi_ingest payload db fid now rawOk).status = .ok mid →
      ∃ data,
        payload.envelope.get (asciiBytes "data") = some data ∧
        ((handle_dpi_ingest payload db fid now rawOk).trace.map opTag = [3, 4, 9, 6] ∨
         (handle_dpi_ingest payload db fid now rawOk).trace.map opTag = [3, 5, 9, 6]) ∧
        (handle_dpi_ingest payload db fid now rawOk).db.dpi_probe_telemetry.map
            (fun r => (r.source_data_hash_hex, r.payload_sha256)) =
          db.dpi_probe_telemetry.map (fun r => (r.source_data_hash_hex, r.payload_sha256)) ++
            [(payload.payload_hash, hexDecodeOrEmpty payload.payload_hash)] ∧
        (rawOk = false →
          (handle_dpi_ingest payload db fid now rawOk).db.raw_events = db.raw_events) ∧
        (rawOk = true →
          (handle_dpi_ingest payload db fid now rawOk).db.raw_events.map
              (fun r => r.payload_sha256) =
            db.raw_events.map (fun r => r.payload_sha256) ++
              [sha256 (jsonSerialize data)])) := by
  constructor
  · intro payload db fid now mid h
    by_cases h1 : payload.signature = []
    · simp [handle_linux_ingest, h1] at h
    by_cases h2 : payload.payload_hash = []
    · simp [handle_linux_ingest, h1, h2] at h
    by_cases h3 : payload.signer_id = []
    · simp [handle_linux_ingest, h1, h2, h3] at h
    cases hb : base64Decode payload.signature with
    | none => simp [handle_linux_ingest, h1, h2, h3, hb] at h
    | some sb =>
    cases hmid : (payload.envelope.get (asciiBytes "event_id")).bind Json.asStr with
    | none => simp [handle_linux_ingest, h1, h2, h3, hb, hmid] at h
    | some message_id =>
    cases hts : (payload.envelope.get (asciiBytes "timestamp")).bind Json.asStr with
    | none => simp [handle_linux_ingest, h1, h2, h3, hb, hmid, hts] at h
    | some ts =>
    by_cases h4 : rfc3339Ok ts = false
    · simp [handle_linux_ingest, h1, h2, h3, hb, hmid, hts, h4] at h
    cases hcid : (payload.envelope.get (asciiBytes "component_id")).bind Json.asStr with
    | none => simp [handle_linux_ingest, h1, h2, h3, hb, hmid, hts, h4, hcid] at h
    | some cid =>
    cases hdat : payload.envelope.get (asciiBytes "data") with
    | none => simp [handle_linux_ingest, h1, h2, h3, hb, hmid, hts, h4, hcid, hdat] at h
    | some data =>
    cases hag : get_or_create_agent db cid (asciiBytes "linux_agent") fid now with
    | none => simp [handle_linux_ingest, h1, h2, h3, hb, hmid, hts, h4, hcid, hdat, hag] at h
    | some triple =>
    obtain ⟨aid, db1, agentOps⟩ := triple
    by_cases h5 : uuidOk message_id = false
    · simp [handle_linux_ingest, h1, h2, h3, hb, hmid, hts, h4, hcid, hdat, hag, h5] at h
    obtain ⟨htags, hraw, hlin, -⟩ :=
      get_or_create_agent_spec db cid (asciiBytes "linux_agent") fid now aid db1 agentOps hag
    refine ⟨data, rfl, ?_, ?_, ?_⟩
    · rcases htags with ht | ht
      · left
        simp [handle_linux_ingest, h1, h2, h3, hb, hmid, hts, h4, hcid, hdat, hag, h5, ht, opTag]
      · right
        simp [handle_linux_ingest, h1, h2, h3, hb, hmid, hts, h4, hcid, hdat, hag, h5, ht, opTag]
    · simp [handle_linux_ingest, h1, h2, h3, hb, hmid, hts, h4, hcid, hdat, hag, h5, hraw]
    · simp [handle_linux_ingest, h1, h2, h3, hb, hmid, hts, h4, hcid, hdat, hag, h5, hlin]
  · intro payload db fid now rawOk mid h
    by_cases h1 : payload.signature = []
    · simp [handle_dpi_ingest, h1] at h
    by_cases h2 : payload.payload_hash = []
    · simp [handle_dpi_ingest, h1, h2] at h
    by_cases h3 : payload.signer_id = []
    · simp [handle_dpi_ingest, h1, h2, h3] at h
    cases hb : base64Decode payload.signature with
    | none => simp [handle_dpi_ingest, h1, h2, h3, hb] at h
    | some sb =>
    cases hmid : (payload.envelope.get (asciiBytes "event_id")).bind Json.asStr with
    | none => simp [handle_dpi_ingest, h1, h2, h3, hb, hmid] at h
    | some message_id =>
    cases hts : (payload.envelope.get (asciiBytes "timestamp")).bind Json.asStr with
    | none => simp [handle_dpi_ingest, h1, h2, h3, hb, hmid, hts] at h
    | some ts =>
    by_cases h4 : rfc3339Ok ts = false
    · simp [handle_dpi_ingest, h1, h2, h3, hb, hmid, hts, h4] at h
    cases hcid : (payload.envelope.get (asciiBytes "component_id")).bind Json.asStr with
    | none => simp [handle_dpi_ingest, h1, h2, h3, hb, hmid, hts, h4, hcid] at h
    | some cid =>
    cases hdat : payload.envelope.get (asciiBytes "data") with
    | none => simp [handle_dpi_ingest, h1, h2, h3, hb, hmid, hts, h4, hcid, hdat] at h
    | some data =>
    cases hag : get_or_create_agent db cid (asciiBytes "dpi_probe") fid now with
    | none => simp [handle_dpi_ingest, h1, h2, h3, hb, hmid, hts, h4, hcid, hdat, hag] at h
    | some triple =>
    obtain ⟨aid, db1, agentOps⟩ := triple
    by_cases h5 : uuidOk message_id = false
    · simp [handle_dpi_ingest, h1, h2, h3, hb, hmid, hts, h4, hcid, hdat, hag, h5] at h
    obtain ⟨htags, hraw, -, hdpi⟩ :=
      get_or_create_agent_spec db cid (asciiBytes "dpi_probe") fid now aid db1 agentOps hag
    refine ⟨data, rfl, ?_, ?_, ?_, ?_⟩
    · rcases htags with ht | ht
      · left
        simp [handle_dpi_ingest, h1, h2, h3, hb, hmid, hts, h4, hcid, hdat, hag, h5, ht, opTag]
      · right
        simp [handle_dpi_ingest, h1, h2, h3, hb, hmid, hts, h4, hcid, hdat, hag, h5, ht, opTag]
    · simp [handle_dpi_ingest, h1, h2, h3, hb, hmid, hts, h4, hcid, hdat, hag, h5, hdpi]
    · intro hfalse; subst hfalse
      simp [handle_dpi_ingest, h1, h2, h3, hb, hmid, hts, h4, hcid, hdat, hag, h5, hraw]
    · intro htrue; subst htrue
      simp [handle_dpi_ingest, h1, h2, h3, hb, hmid, hts, h4, hcid, hdat, hag, h5, hraw]

/-- Closed instance of the C3 amended theorem at the concrete accepted
request req0, on both endpoints. -/
theorem spec_C3_amended_witness :
    (∃ data,
      req0.envelope.get (asciiBytes "data") = some data ∧
      ((handle_linux_ingest req0 emptyIngestDb 1 100).trace.map opTag = [3, 4, 0, 6, 7, 8, 1] ∨
       (handle_linux_ingest req0 emptyIngestDb 1 100).trace.map opTag = [3, 5, 0, 6, 7, 8, 1]) ∧
      (handle_linux_ingest req0 emptyIngestDb 1 100).db.raw_events.map
          (fun r => r.payload_sha256) =
        emptyIngestDb.raw_events.map (fun r => r.payload_sha256) ++
          [sha256 (jsonSerialize req0.envelope)] ∧
      (handle_linux_ingest req0 emptyIngestDb 1 100).db.linux_agent_telemetry.map
          (fun r => (r.source_data_hash_hex, r.payload_sha256)) =
        emptyIngestDb.linux_agent_telemetry.map
            (fun r => (r.source_data_hash_hex, r.payload_sha256)) ++
          [(req0.payload_hash, some (sha256 (jsonSerialize data)))]) ∧
    (∃ data,
      req0.envelope.get (asciiBytes "data") = some data ∧
      ((handle_dpi_ingest req0 emptyIngestDb 1 100 false).trace.map opTag = [3, 4, 9, 6] ∨
       (handle_dpi_ingest req0 emptyIngestDb 1 100 false).trace.map opTag = [3, 5, 9, 6]) ∧
      (handle_dpi_ingest req0 emptyIngestDb 1 100 false).db.dpi_probe_telemetry.map
          (fun r => (r.source_data_hash_hex, r.payload_sha256)) =
        emptyIngestDb.dpi_probe_telemetry.map
            (fun r => (r.source_data_hash_hex, r.payload_sha256)) ++
          [(req0.payload_hash, hexDecodeOrEmpty req0.payload_hash)] ∧
      (false = false →
        (handle_dpi_ingest req0 emptyIngestDb 1 100 false).db.raw_events =
          emptyIngestDb.raw_events) ∧
      (false = true →
        (handle_dpi_ingest req0 emptyIngestDb 1 100 false).db.raw_events.map
            (fun r => r.payload_sha256) =
          emptyIngestDb.raw_events.map (fun r => r.payload_sha256) ++
            [sha256 (jsonSerialize data)])) :=
  ⟨spec_C3_amended.1 req0 emptyIngestDb 1 100 msgId0 (by decide),
   spec_C3_amended.2 req0 emptyIngestDb 1 100 false msgId0 (by decide)⟩

/-- Row of immutable_audit_log, the columns involved in the hash chain. The
newest record (greatest created_at) is at the head of the list. -/
structure AuditRec where
  audit_id : Nat
  payload_json : Json
  payload_sha256 : Str
  prev_audit_id : Option Nat
  prev_payload_sha256 : Option Str
  chain_hash_sha256 : Str

/-- Thirty-two zero bytes, the genesis previous chain hash. -/
def zeros32 : Str := List.replicate 32 0

/-- Model of CoreDb::fetch_last_audit_chain (db.rs:638): the newest record
yields its audit id, chain hash and payload hash. -/
def fetch_last_audit_chain (log : List AuditRec) : Option (Nat × Str × Str) :=
  log.head?.map (fun r => (r.audit_id, r.chain_hash_sha256, r.payload_sha256))

/-- Model of CoreDb::insert_immutable_audit_log (db.rs:665): hash the
serialized payload, read the previous record (zero chain hash and absent
previous fields when the log is empty), link the new chain hash as the sha256
of previous chain hash concatenated with the payload hash, and insert. The
fresh row id enters as the new_id parameter. -/
def insert_immutable_audit_log (log : List AuditRec) (payload_json : Json)
    (new_id : Nat) : List AuditRec :=
  let payload_sha256 := sha256 (jsonSerialize payload_json)
  match fetch_last_audit_chain log with
  | some (aid, chain_hash, payload_hash) =>
    { audit_id := new_id, payload_json := payload_json, payload_sha256 := payload_sha256,
      prev_audit_id := some aid, prev_payload_sha256 := some payload_hash,
      chain_hash_sha256 := sha256 (chain_hash ++ payload_sha256) } :: log
  | none =>
    { audit_id := new_id, payload_json := payload_json, payload_sha256 := payload_sha256,
      prev_audit_id := none, prev_payload_sha256 := none,
      chain_hash_sha256 := sha256 (zeros32 ++ payload_sha256) } :: log

/-- Audit logs reachable by inserting records into an initially empty table,
the only write path the orchestrator has for immutable_audit_log. -/
inductive AuditReachable : List AuditRec → Prop
  | nil : AuditReachable []
  | step (log : List AuditRec) (payload : Json) (new_id : Nat) :
      AuditReachable log → AuditReachable (insert_immutable_audit_log log payload new_id)

/-- Chain validity (newest first): the oldest record carries the genesis
chain hash over thirty-two zero bytes with absent previous fields, and every
record hashes the chain hash of its predecessor concatenated with its own
payload hash, recording the predecessor id and payload hash. -/
def audit_chain_ok : List AuditRec → Bool
  | [] => true
  | [r] =>
    decide (r.chain_hash_sha256 = sha256 (zeros32 ++ r.payload_sha256)) &&
    decide (r.prev_audit_id = none) && decide (r.prev_payload_sha256 = none)
  | r :: r2 :: rest =>
    decide (r.chain_hash_sha256 = sha256 (r2.chain_hash_sha256 ++ r.payload_sha256)) &&
    decide (r.prev_audit_id = some r2.audit_id) &&
    decide (r.prev_payload_sha256 = some r2.payload_sha256) &&
    audit_chain_ok (r2 :: rest)

/-- C4: every immutable_audit_log state reachable through
insert_immutable_audit_log satisfies the chain invariant: each inserted
record has chain_hash_sha256 equal to the sha256 of the previous chain hash
concatenated with its payload_sha256, where the previous chain hash is the
chain hash of the most recent existing record and thirty-two zero bytes for
the genesis record (whose prev_audit_id and prev_payload_sha256 are absent);
hence consecutive records k and k+1 satisfy
chain_hash (k+1) = sha256 (chain_hash k ++ payload_sha256 (k+1)). -/
theorem spec_C4_audit_chain (log : List AuditRec) (h : AuditReachable log) :
    audit_chain_ok log = true := by
  induction h with
  | nil => rfl
  | step log payload new_id _ ih =>
    cases log with
    | nil => simp [insert_immutable_audit_log, fetch_last_audit_chain, audit_chain_ok]
    | cons r rest =>
      simp only [insert_immutable_audit_log, fetch_last_audit_chain, List.head?_cons,
        Option.map_some, audit_chain_ok] at ih ⊢
      simp [ih]

/-- Closed instance of the C4 theorem: a two-record log built by two inserts
satisfies the chain invariant. -/
theorem spec_C4_audit_chain_witness :
    audit_chain_ok
      (insert_immutable_audit_log
        (insert_immutable_audit_log [] (.str (asciiBytes "P1")) 1)
        (.str (asciiBytes "P2")) 2) = true :=
  spec_C4_audit_chain _
    (AuditReachable.step _ _ _ (AuditReachable.step _ _ _ AuditReachable.nil))

/-- ASCII whitespace test, the bytes `str::trim` removes. -/
def isWsByte (c : Nat) : Bool := c = 32 ∨ c = 9 ∨ c = 10 ∨ c = 13 ∨ c = 11 ∨ c = 12

/-- ASCII letter test. -/
def isAlphaByte (c : Nat) : Bool := (65 ≤ c ∧ c ≤ 90) ∨ (97 ≤ c ∧ c ≤ 122)

/-- Trim ASCII whitespace from both ends. -/
def trimBytes (s : Str) : Str :=
  ((s.dropWhile isWsByte).reverse.dropWhile isWsByte).reverse

/-- Whether pre is a leading segment of l. -/
def listStarts : Str → Str → Bool
  | [], _ => true
  | _ :: _, [] => false
  | p :: ps, x :: xs => p = x && listStarts ps xs

/-- Whether needle occurs contiguously inside hay. -/
def hasSub (hay needle : Str) : Bool :=
  match hay with
  | [] => needle.isEmpty
  | _ :: t => listStarts needle hay || hasSub t needle

/-- Lowercase an ASCII byte. -/
def toLowerByte (c : Nat) : Nat := if 65 ≤ c ∧ c ≤ 90 then c + 32 else c

/-- Lowercase an ASCII byte string. -/
def toLowerBytes (s : Str) : Str := s.map toLowerByte

/-- Retention denylist (retention_enforcer.rs:15): tables a run must never
touch. -/
def DENYLIST_TABLES : List Str :=
  [asciiBytes "ransomeye.immutable_audit_log",
   asciiBytes "ransomeye.trust_verification_records",
   asciiBytes "ransomeye.signature_validation_events",
   asciiBytes "ransomeye.retention_policies"]

/-- Schemas a retention policy may reference (retention_enforcer.rs:22). -/
def ALLOWED_SCHEMAS : List Str := [asciiBytes "ransomeye", asciiBytes "public"]

/-- Candidate time columns in scan order (retention_enforcer.rs:24). -/
def CANDIDATE_TIME_COLUMNS : List Str :=
  [asciiBytes "created_at", asciiBytes "observed_at", asciiBytes "event_time",
   asciiBytes "received_at", asciiBytes "last_seen_at", asciiBytes "first_seen_at",
   asciiBytes "timestamp"]

/-- Strict identifier contract of QualifiedTable::quote_ident
(retention_enforcer.rs:81): nonempty, first byte letter or underscore, rest
letters, digits or underscores. -/
def ident_ok (s : Str) : Bool :=
  match s with
  | [] => false
  | c :: rest =>
    (c = 95 ∨ isAlphaByte c) ∧ rest.all (fun x => x = 95 ∨ isAlphaByte x ∨ isDigitByte x)

/-- Parsed schema-qualified table name. -/
structure QualifiedTable where
  schema : Str
  table : Str
deriving DecidableEq

/-- Dotted rendering, QualifiedTable::as_fqn. -/
def QualifiedTable.as_fqn (qt : QualifiedTable) : Str := qt.schema ++ [46] ++ qt.table

/-- Model of QualifiedTable::parse (retention_enforcer.rs:100): exactly two
dot-separated segments, trimmed; the schema must be allowed and both segments
must satisfy the strict identifier contract. Every failure is fatal, modelled
as none. -/
def QualifiedTable.parse (fqn : Str) : Option QualifiedTable :=
  match splitOnByte 46 fqn with
  | [s, t] =>
    let schema := trimBytes s
    let table := trimBytes t
    if schema ∈ ALLOWED_SCHEMAS ∧ ident_ok schema ∧ ident_ok table then
      some { schema := schema, table := table }
    else none
  | _ => none

/-- Row of the retention_policies table. -/
structure RetentionPolicyRow where
  table_name : Str
  retention_days : Int
  retention_enabled : Bool

/-- Tuning knobs of the enforcer (RetentionEnforcerConfig). -/
structure RetentionEnforcerConfig where
  batch_size : Int
  max_batches_per_table : Int
  sleep_ms_between_batches : Int

/-- Database state visible to the enforcer: the policy rows (with a
readability flag for the policy table query itself), the set of
append-only-trigger-protected fqns, the existing base tables with their
columns and types, and count oracles for the older-than-cutoff count and the
per-batch delete result. -/
structure RetentionDb where
  policies_readable : Bool
  policies : List RetentionPolicyRow
  appendOnly : List Str
  tables : List (Str × Str)
  columns : List ((Str × Str) × List (Str × Str))
  rows_older : Str → Nat
  delete_count : Str → Nat → Nat

/-- Lexicographic byte-string order used to model ORDER BY table_name. -/
def lexLe : Str → Str → Bool
  | [], _ => true
  | _ :: _, [] => false
  | x :: xs, y :: ys => if x < y then true else if y < x then false else lexLe xs ys

/-- Insert into a name-sorted policy list. -/
def insertByName (r : RetentionPolicyRow) : List RetentionPolicyRow → List RetentionPolicyRow
  | [] => [r]
  | x :: xs => if lexLe r.table_name x.table_name then r :: x :: xs else x :: insertByName r xs

/-- Sort policy rows by table name. -/
def sortPolicies : List RetentionPolicyRow → List RetentionPolicyRow
  | [] => []
  | r :: rest => insertByName r (sortPolicies rest)

/-- Parse every policy table name, failing on the first invalid one. -/
def parsePolicies : List RetentionPolicyRow → Option (List (QualifiedTable × Int))
  | [] => some []
  | r :: rest =>
    match QualifiedTable.parse r.table_name with
    | none => none
    | some qt => (parsePolicies rest).map (fun l => (qt, r.retention_days) :: l)

/-- Model of RetentionEnforcer::fetch_enabled_policies
(retention_enforcer.rs:216): read enabled rows ordered by table name and
parse each table name fail-closed. -/
def fetch_enabled_policies (db : RetentionDb) : Option (List (QualifiedTable × Int)) :=
  if db.policies_readable = false then none
  else parsePolicies (sortPolicies (db.policies.filter (fun r => r.retention_enabled)))

/-- Columns of a table as recorded in the catalog. -/
def colsFor (db : RetentionDb) (qt : QualifiedTable) : List (Str × Str) :=
  ((db.columns.find? (fun e => e.1 = (qt.schema, qt.table))).map (fun e => e.2)).getD []

/-- Model of RetentionEnforcer::find_time_column (retention_enforcer.rs:398):
the table must exist, and the first candidate column whose type contains
timestamp or date (lowercased) is chosen; none is fatal. -/
def find_time_column (db : RetentionDb) (qt : QualifiedTable) : Option Str :=
  if db.tables.contains (qt.schema, qt.table) = false then none
  else
    CANDIDATE_TIME_COLUMNS.find? (fun cand =>
      match (colsFor db qt).find? (fun c => c.1 = cand) with
      | some c =>
        hasSub (toLowerBytes c.2) (asciiBytes "timestamp") ||
          hasSub (toLowerBytes c.2) (asciiBytes "date")
      | none => false)

/-- Batched delete loop of enforce_one_table (retention_enforcer.rs:364): up
to max_batches DELETE statements against the table, stopping after a batch
that deletes zero rows. Each issued DELETE is recorded by its target fqn. -/
def delete_batches (db : RetentionDb) (fqn : Str) : Nat → Nat → List Str
  | 0, _ => []
  | k + 1, idx =>
    fqn :: (if db.delete_count fqn idx = 0 then [] else delete_batches db fqn k (idx + 1))

/-- Model of RetentionEnforcer::enforce_one_table (retention_enforcer.rs:294):
re-check the denylist and append-only guards, resolve the time column, count
eligible rows, and in a live run with a nonzero count execute the bounded
delete loop. Fatal validation failures are none; a successful run returns the
issued DELETE statements. -/
def enforce_one_table (cfg : RetentionEnforcerConfig) (db : RetentionDb)
    (qt : QualifiedTable) (dry_run : Bool) : Option (List Str) :=
  if qt.as_fqn ∈ DENYLIST_TABLES then none
  else if qt.as_fqn ∈ db.appendOnly then none
  else
    match find_time_column db qt with
    | none => none
    | some _ =>
      if dry_run then some []
      else if db.rows_older qt.as_fqn = 0 then some []
      else some (delete_batches db qt.as_fqn cfg.max_batches_per_table.toNat 0)

/-- Outcome of a retention run: success flag and every DELETE issued, in
order. -/
structure RetentionRunOut where
  ok : Bool
  deletes : List Str

/-- Per-table loop of enforce: a fatal table aborts the run, keeping the
deletes already executed. -/
def enforce_tables (cfg : RetentionEnforcerConfig) (db : RetentionDb) (dry_run : Bool) :
    List (QualifiedTable × Int) → List Str → RetentionRunOut
  | [], acc => { ok := true, deletes := acc }
  | (qt, _) :: rest, acc =>
    match enforce_one_table cfg db qt dry_run with
    | none => { ok := false, deletes := acc }
    | some ops => enforce_tables cfg db dry_run rest (acc ++ ops)

/-- Model of RetentionEnforcer::enforce (retention_enforcer.rs:155): fetch
and validate the enabled policies (fail-closed on an unreadable table or an
invalid name), require a nonempty set, reject any denylisted or
append-only-protected target before touching any table, then run the
per-table loop. -/
def enforce (cfg : RetentionEnforcerConfig) (db : RetentionDb) (dry_run : Bool) :
    RetentionRunOut :=
  match fetch_enabled_policies db with
  | none => { ok := false, deletes := [] }
  | some policies =>
    if policies.isEmpty then { ok := false, deletes := [] }
    else if policies.any (fun p => p.1.as_fqn ∈ DENYLIST_TABLES) then
      { ok := false, deletes := [] }
    else if policies.any (fun p => p.1.as_fqn ∈ db.appendOnly) then
      { ok := false, deletes := [] }
    else enforce_tables cfg db dry_run policies []

/-- Invalid policy-set conditions named by the claim: the enabled set cannot
be read or contains an invalid table name, is empty, or targets a denylisted
or append-only table. -/
def policy_set_invalid (db : RetentionDb) : Bool :=
  match fetch_enabled_policies db with
  | none => true
  | some pols =>
    pols.isEmpty ||
      pols.any (fun p => p.1.as_fqn ∈ DENYLIST_TABLES || p.1.as_fqn ∈ db.appendOnly)

/-- Every DELETE issued by the batch loop targets the loop table. -/
theorem delete_batches_mem (db : RetentionDb) (fqn : Str) (k idx : Nat) (t : Str)
    (h : t ∈ delete_batches db fqn k idx) : t = fqn := by
  induction k generalizing idx with
  | zero => simp [delete_batches] at h
  | succ n ih =>
    simp only [delete_batches, List.mem_cons] at h
    rcases h with h | h
    · exact h
    · split at h
      · simp at h
      · exact ih _ h

/-- A successful per-table run only deletes from its own table, which passed
both protection guards. -/
theorem enforce_one_table_mem (cfg : RetentionEnforcerConfig) (db : RetentionDb)
    (qt : QualifiedTable) (dry_run : Bool) (ops : List Str)
    (h : enforce_one_table cfg db qt dry_run = some ops) :
    qt.as_fqn ∉ DENYLIST_TABLES ∧ qt.as_fqn ∉ db.appendOnly ∧ ∀ t ∈ ops, t = qt.as_fqn := by
  unfold enforce_one_table at h
  split at h
  · exact absurd h (by simp)
  split at h
  · exact absurd h (by simp)
  rename_i hdeny hao
  split at h
  · exact absurd h (by simp)
  refine ⟨hdeny, hao, ?_⟩
  split at h
  · simp only [Option.some.injEq] at h
    subst h; simp
  split at h
  · simp only [Option.some.injEq] at h
    subst h; simp
  · simp only [Option.some.injEq] at h
    subst h
    intro t ht
    exact delete_batches_mem db qt.as_fqn _ _ t ht

/-- The per-table loop preserves the protected-table freedom of the
accumulated deletes. -/
theorem enforce_tables_mem (cfg : RetentionEnforcerConfig) (db : RetentionDb)
    (dry_run : Bool) (pols : List (QualifiedTable × Int)) (acc : List Str)
    (hacc : ∀ t ∈ acc, t ∉ DENYLIST_TABLES ∧ t ∉ db.appendOnly) :
    ∀ t ∈ (enforce_tables cfg db dry_run pols acc).deletes,
      t ∉ DENYLIST_TABLES ∧ t ∉ db.appendOnly := by
  induction pols generalizing acc with
  | nil => simpa [enforce_tables] using hacc
  | cons p rest ih =>
    obtain ⟨qt, days⟩ := p
    simp only [enforce_tables]
    cases hone : enforce_one_table cfg db qt dry_run with
    | none => simpa using hacc
    | some ops =>
      obtain ⟨hdeny, hao, hops⟩ := enforce_one_table_mem cfg db qt dry_run ops hone
      refine ih (acc ++ ops) ?_
      intro t ht
      rcases List.mem_append.mp ht with h | h
      · exact hacc t h
      · rw [hops t h]
        exact ⟨hdeny, hao⟩

/-- Orchestrator lifecycle states (lib.rs:49). -/
inductive OrchestratorState where
  | Initializing
  | EnvironmentValidated
  | TrustInitialized
  | PolicyInitialized
  | BusInitialized
  | ServicesInitialized
  | Ready
  | Running
  | ShuttingDown
  | Failed
deriving DecidableEq

/-- Observable startup effects: state transitions and database writes. An
audit write carries its action and the status field of its payload (none when
the payload has no status field); a health write carries the status and
details columns and the state field of its details payload. -/
inductive OrchEvent where
  | stateChange (s : OrchestratorState)
  | startupEventWrite
  | healthWrite (status details state_field : Str)
  | auditWrite (action : Str) (status : Option Str)
deriving DecidableEq

/-- Success oracles for the external effects of Orchestrator::startup
(lib.rs:526): one flag per fallible call, in call order, plus the retention
configuration the enforcer is built from. The retention dry-run outcome
itself is computed by the enforce model against the retention database. -/
structure StartupEnv where
  env_ok : Bool
  db_config_ok : Bool
  db_connect_ok : Bool
  schema_apply_ok : Bool
  schema_validate_ok : Bool
  upsert_component_ok : Bool
  startup_event_write_ok : Bool
  health_write_ok : Bool
  audit_write_ok : Bool
  retention_cfg_ok : Bool
  retention_cfg : RetentionEnforcerConfig
  trust_ok : Bool
  policy_ok : Bool
  bus_cert_configured : Bool
  bus_ok : Bool
  running_health_write_ok : Bool
  running_audit_write_ok : Bool

/-- Result of the startup sequence: overall success, the last state reached,
and the ordered event trace. -/
structure StartupOut where
  ok : Bool
  final_state : OrchestratorState
  events : List OrchEvent

/-- Events after environment validation. -/
def evsEnv : List OrchEvent := [.stateChange .EnvironmentValidated]

/-- Events after the startup_events row. -/
def evsStartupEvent : List OrchEvent := evsEnv ++ [.startupEventWrite]

/-- Events after the STARTING component_health row. -/
def evsHealth : List OrchEvent :=
  evsStartupEvent ++
    [.healthWrite (asciiBytes "healthy") (asciiBytes "startup_db_initialized")
      (asciiBytes "STARTING")]

/-- Events after the orchestrator_db_initialized audit record. -/
def evsAudit : List OrchEvent :=
  evsHealth ++
    [.auditWrite (asciiBytes "orchestrator_db_initialized") (some (asciiBytes "STARTING"))]

/-- Events after the successful retention dry-run audit record. -/
def evsRetention : List OrchEvent :=
  evsAudit ++ [.auditWrite (asciiBytes "runtime_retention_dry_run") none]

/-- Events after trust initialization. -/
def evsTrust : List OrchEvent := evsRetention ++ [.stateChange .TrustInitialized]

/-- Events after policy initialization. -/
def evsPolicy : List OrchEvent := evsTrust ++ [.stateChange .PolicyInitialized]

/-- Events through the transition to Running. -/
def evsRunning : List OrchEvent :=
  evsPolicy ++
    [.stateChange .BusInitialized, .stateChange .ServicesInitialized,
     .stateChange .Ready, .stateChange .Running]

/-- Events after the RUNNING component_health row. -/
def evsRunHealth : List OrchEvent :=
  evsRunning ++
    [.healthWrite (asciiBytes "healthy") (asciiBytes "running") (asciiBytes "RUNNING")]

/-- Events of a fully successful startup. -/
def evsAll : List OrchEvent :=
  evsRunHealth ++ [.auditWrite (asciiBytes "orchestrator_startup") (some (asciiBytes "RUNNING"))]

/-- Model of Orchestrator::startup (lib.rs:526) with initialize_database
(lib.rs:188) inlined: environment validation, then database initialization
(config, connect, schema apply, contract validation, component upsert,
startup_events row, component_health row with state STARTING, audit record
orchestrator_db_initialized with status STARTING, retention dry-run via the
enforce model), then trust, policy, bus (skipped without certificates),
services, the health gate, the transition to Running, and only then the
component_health row and audit record with status RUNNING. Every failure
returns an error at that point, keeping the events already emitted. -/
def startup (env : StartupEnv) (rdb : RetentionDb) : StartupOut :=
  if env.env_ok = false then { ok := false, final_state := .Initializing, events := [] }
  else if env.db_config_ok = false then
    { ok := false, final_state := .EnvironmentValidated, events := evsEnv }
  else if env.db_connect_ok = false then
    { ok := false, final_state := .EnvironmentValidated, events := evsEnv }
  else if env.schema_apply_ok = false then
    { ok := false, final_state := .EnvironmentValidated, events := evsEnv }
  else if env.schema_validate_ok = false then
    { ok := false, final_state := .EnvironmentValidated, events := evsEnv }
  else if env.upsert_component_ok = false then
    { ok := false, final_state := .EnvironmentValidated, events := evsEnv }
  else if env.startup_event_write_ok = false then
    { ok := false, final_state := .EnvironmentValidated, events := evsEnv }
  else if env.health_write_ok = false then
    { ok := false, final_state := .EnvironmentValidated, events := evsStartupEvent }
  else if env.audit_write_ok = false then
    { ok := false, final_state := .EnvironmentValidated, events := evsHealth }
  else if env.retention_cfg_ok = false then
    { ok := false, final_state := .EnvironmentValidated, events := evsAudit }
  else if (enforce env.retention_cfg rdb true).ok = false then
    { ok := false, final_state := .EnvironmentValidated, events := evsAudit }
  else if env.trust_ok = false then
    { ok := false, final_state := .EnvironmentValidated, events := evsRetention }
  else if env.policy_ok = false then
    { ok := false, final_state := .TrustInitialized, events := evsTrust }
  else if env.bus_cert_configured = true ∧ env.bus_ok = false then
    { ok := false, final_state := .PolicyInitialized, events := evsPolicy }
  else if env.running_health_write_ok = false then
    { ok := false, final_state := .Running, events := evsRunning }
  else if env.running_audit_write_ok = false then
    { ok := false, final_state := .Running, events := evsRunHealth }
  else
    { ok := true, final_state := .Running, events := evsAll }

/-- Conjunction of every startup gate the claim lists: environment, database
(config, connect, schema apply and contract, upsert, required writes,
retention configuration and dry-run), trust, policy, bus (success or absent
certificates) and services plus the health gate, which cannot fail once
trust and policy are initialized. -/
def all_gates_ok (env : StartupEnv) (rdb : RetentionDb) : Bool :=
  env.env_ok && env.db_config_ok && env.db_connect_ok && env.schema_apply_ok &&
    env.schema_validate_ok && env.upsert_component_ok && env.startup_event_write_ok &&
    env.health_write_ok && env.audit_write_ok && env.retention_cfg_ok &&
    (enforce env.retention_cfg rdb true).ok && env.trust_ok && env.policy_ok &&
    (!env.bus_cert_configured || env.bus_ok)

/-- Every audit write with action orchestrator_db_initialized carries status
STARTING. -/
def db_init_audit_status_ok (evs : List OrchEvent) : Bool :=
  evs.all fun e =>
    match e with
    | .auditWrite a st =>
      if a = asciiBytes "orchestrator_db_initialized" then
        decide (st = some (asciiBytes "STARTING"))
      else true
    | _ => true

/-- No health or audit write carrying status RUNNING occurs before the
transition to the Running state. -/
def running_writes_after_transition : List OrchEvent → Bool
  | [] => true
  | .stateChange .Running :: _ => true
  | .healthWrite _ _ st :: rest =>
    if st = asciiBytes "RUNNING" then false else running_writes_after_transition rest
  | .auditWrite _ (some st) :: rest =>
    if st = asciiBytes "RUNNING" then false else running_writes_after_transition rest
  | _ :: rest => running_writes_after_transition rest

/-- Boolean inversion helper: a Bool that is not false is true. -/
theorem bool_ne_false (b : Bool) (h : ¬ b = false) : b = true := by
  cases b
  · exact absurd rfl h
  · rfl

/-- Characterization of the startup model used by the gate claims: Running
implies every gate succeeded, the db-init audit record always says STARTING,
RUNNING writes appear only after the Running transition, and a failed
retention dry-run fails startup short of Running. -/
theorem startup_spec (env : StartupEnv) (rdb : RetentionDb) :
    ((startup env rdb).final_state = .Running → all_gates_ok env rdb = true) ∧
    db_init_audit_status_ok (startup env rdb).events = true ∧
    running_writes_after_transition (startup env rdb).events = true ∧
    ((enforce env.retention_cfg rdb true).ok = false →
      (startup env rdb).ok = false ∧ (startup env rdb).final_state ≠ .Running) := by
  by_cases h1 : env.env_ok = false
  · have hs : startup env rdb = ⟨false, .Initializing, []⟩ := by
      unfold startup
      rw [if_pos h1]
    rw [hs]
    exact ⟨fun hx => absurd hx (by decide), by decide, by decide, fun hr2 => ⟨rfl, by decide⟩⟩
  by_cases h2 : env.db_config_ok = false
  · have hs : startup env rdb = ⟨false, .EnvironmentValidated, evsEnv⟩ := by
      unfold startup
      rw [if_neg h1, if_pos h2]
    rw [hs]
    exact ⟨fun hx => absurd hx (by decide), by decide, by decide, fun hr2 => ⟨rfl, by decide⟩⟩
  by_cases h3 : env.db_connect_ok = false
  · have hs : startup env rdb = ⟨false, .EnvironmentValidated, evsEnv⟩ := by
      unfold startup
      rw [if_neg h1, if_neg h2, if_pos h3]
    rw [hs]
    exact ⟨fun hx => absurd hx (by decide), by decide, by decide, fun hr2 => ⟨rfl, by decide⟩⟩
  by_cases h4 : env.schema_apply_ok = false
  · have hs : startup env rdb = ⟨false, .EnvironmentValidated, evsEnv⟩ := by
      unfold startup
      rw [if_neg h1, if_neg h2, if_neg h3, if_pos h4]
    rw [hs]
    exact ⟨fun hx => absurd hx (by decide), by decide, by decide, fun hr2 => ⟨rfl, by decide⟩⟩
  by_cases h5 : env.schema_validate_ok = false
  · have hs : startup env rdb = ⟨false, .EnvironmentValidated, evsEnv⟩ := by
      unfold startup
      rw [if_neg h1, if_neg h2, if_neg h3, if_neg h4, if_pos h5]
    rw [hs]
    exact ⟨fun hx => absurd hx (by decide), by decide, by decide, fun hr2 => ⟨rfl, by decide⟩⟩
  by_cases h6 : env.upsert_component_ok = false
  · have hs : startup env rdb = ⟨false, .EnvironmentValidated, evsEnv⟩ := by
      unfold startup
      rw [if_neg h1, if_neg h2, if_neg h3, if_neg h4, if_neg h5, if_pos h6]
    rw [hs]
    exact ⟨fun hx => absurd hx (by decide), by decide, by decide, fun hr2 => ⟨rfl, by decide⟩⟩
  by_cases h7 : env.startup_event_write_ok = false
  · have hs : startup env rdb = ⟨false, .EnvironmentValidated, evsEnv⟩ := by
      unfold startup
      rw [if_neg h1, if_neg h2, if_neg h3, if_neg h4, if_neg h5, if_neg h6, if_pos h7]
    rw [hs]
    exact ⟨fun hx => absurd hx (by decide), by decide, by decide, fun hr2 => ⟨rfl, by decide⟩⟩
  by_cases h8 : env.health_write_ok = false
  · have hs : startup env rdb = ⟨false, .EnvironmentValidated, evsStartupEvent⟩ := by
      unfold startup
      rw [if_neg h1, if_neg h2, if_neg h3, if_neg h4, if_neg h5, if_neg h6, if_neg h7, if_pos h8]
    rw [hs]
    exact ⟨fun hx => absurd hx (by decide), by decide, by decide, fun hr2 => ⟨rfl, by decide⟩⟩
  by_cases h9 : env.audit_write_ok = false
  · have hs : startup env rdb = ⟨false, .EnvironmentValidated, evsHealth⟩ := by
      unfold startup
      rw [if_neg h1, if_neg h2, if_neg h3, if_neg h4, if_neg h5, if_neg h6, if_neg h7, if_neg h8, if_pos h9]
    rw [hs]
    exact ⟨fun hx => absurd hx (by decide), by decide, by decide, fun hr2 => ⟨rfl, by decide⟩⟩
  by_cases h10 : env.retention_cfg_ok = false
  · have hs : startup env rdb = ⟨false, .EnvironmentValidated, evsAudit⟩ := by
      unfold startup
      rw [if_neg h1, if_neg h2, if_neg h3, if_neg h4, if_neg h5, if_neg h6, if_neg h7, if_neg h8, if_neg h9, if_pos h10]
    rw [hs]
    exact ⟨fun hx => absurd hx (by decide), by decide, by decide, fun hr2 => ⟨rfl, by decide⟩⟩
  by_cases h11 : (enforce env.retention_cfg rdb true).ok = false
  · have hs : startup env rdb = ⟨false, .EnvironmentValidated, evsAudit⟩ := by
      unfold startup
      rw [if_neg h1, if_neg h2, if_neg h3, if_neg h4, if_neg h5, if_neg h6, if_neg h7, if_neg h8, if_neg h9, if_neg h10, if_pos h11]
    rw [hs]
    exact ⟨fun hx => absurd hx (by decide), by decide, by decide, fun hr2 => ⟨rfl, by decide⟩⟩
  by_cases h12 : env.trust_ok = false
  · have hs : startup env rdb = ⟨false, .EnvironmentValidated, evsRetention⟩ := by
      unfold startup
      rw [if_neg h1, if_neg h2, if_neg h3, if_neg h4, if_neg h5, if_neg h6, if_neg h7, if_neg h8, if_neg h9, if_neg h10, if_neg h11, if_pos h12]
    rw [hs]
    exact ⟨fun hx => absurd hx (by decide), by decide, by decide, fun hr2 => ⟨rfl, by decide⟩⟩
  by_cases h13 : env.policy_ok = false
  · have hs : startup env rdb = ⟨false, .TrustInitialized, evsTrust⟩ := by
      unfold startup
      rw [if_neg h1, if_neg h2, if_neg h3, if_neg h4, if_neg h5, if_neg h6, if_neg h7, if_neg h8, if_neg h9, if_neg h10, if_neg h11, if_neg h12, if_pos h13]
    rw [hs]
    exact ⟨fun hx => absurd hx (by decide), by decide, by decide, fun hr2 => ⟨rfl, by decide⟩⟩
  by_cases h14 : env.bus_cert_configured = true ∧ env.bus_ok = false
  · have hs : startup env rdb = ⟨false, .PolicyInitialized, evsPolicy⟩ := by
      unfold startup
      rw [if_neg h1, if_neg h2, if_neg h3, if_neg h4, if_neg h5, if_neg h6, if_neg h7, if_neg h8, if_neg h9, if_neg h10, if_neg h11, if_neg h12, if_neg h13, if_pos h14]
    rw [hs]
    exact ⟨fun hx => absurd hx (by decide), by decide, by decide, fun hr2 => ⟨rfl, by decide⟩⟩
  have hgates : all_gates_ok env rdb = true := by
    have h1e := bool_ne_false _ h1
    have h2e := bool_ne_false _ h2
    have h3e := bool_ne_false _ h3
    have h4e := bool_ne_false _ h4
    have h5e := bool_ne_false _ h5
    have h6e := bool_ne_false _ h6
    have h7e := bool_ne_false _ h7
    have h8e := bool_ne_false _ h8
    have h9e := bool_ne_false _ h9
    have h10e := bool_ne_false _ h10
    have h11e := bool_ne_false _ h11
    have h12e := bool_ne_false _ h12
    have h13e := bool_ne_false _ h13
    simp only [all_gates_ok, h1e, h2e, h3e, h4e, h5e, h6e, h7e, h8e, h9e, h10e, h11e,
      h12e, h13e, Bool.true_and]
    cases hcert : env.bus_cert_configured
    · simp
    · cases hbus : env.bus_ok
      · exact absurd ⟨hcert, hbus⟩ h14
      · simp
  by_cases h15 : env.running_health_write_ok = false
  · have hs : startup env rdb = ⟨false, .Running, evsRunning⟩ := by
      unfold startup
      rw [if_neg h1, if_neg h2, if_neg h3, if_neg h4, if_neg h5, if_neg h6, if_neg h7, if_neg h8, if_neg h9, if_neg h10, if_neg h11, if_neg h12, if_neg h13, if_neg h14, if_pos h15]
    rw [hs]
    exact ⟨fun hx => hgates, by decide, by decide, fun hr2 => absurd hr2 h11⟩
  by_cases h16 : env.running_audit_write_ok = false
  · have hs : startup env rdb = ⟨false, .Running, evsRunHealth⟩ := by
      unfold startup
      rw [if_neg h1, if_neg h2, if_neg h3, if_neg h4, if_neg h5, if_neg h6, if_neg h7, if_neg h8, if_neg h9, if_neg h10, if_neg h11, if_neg h12, if_neg h13, if_neg h14, if_neg h15, if_pos h16]
    rw [hs]
    exact ⟨fun hx => hgates, by decide, by decide, fun hr2 => absurd hr2 h11⟩
  have hs : startup env rdb = ⟨true, .Running, evsAll⟩ := by
    unfold startup
    rw [if_neg h1, if_neg h2, if_neg h3, if_neg h4, if_neg h5, if_neg h6, if_neg h7, if_neg h8, if_neg h9, if_neg h10, if_neg h11, if_neg h12, if_neg h13, if_neg h14, if_neg h15, if_neg h16]
  rw [hs]
  exact ⟨fun hx => hgates, by decide, by decide, fun hr2 => absurd hr2 h11⟩

/-- C6: the startup model reaches Running only when every gate returned
success; the audit record written at database initialization always has
action orchestrator_db_initialized with status STARTING and never RUNNING;
and every component_health row or audit record carrying status RUNNING is
written only after the transition to Running. -/
theorem spec_C6_running_only_after_gates :
    ∀ (env : StartupEnv) (rdb : RetentionDb),
      ((startup env rdb).final_state = .Running → all_gates_ok env rdb = true) ∧
      db_init_audit_status_ok (startup env rdb).events = true ∧
      running_writes_after_transition (startup env rdb).events = true := by
  intro env rdb
  exact ⟨(startup_spec env rdb).1, (startup_spec env rdb).2.1, (startup_spec env rdb).2.2.1⟩

/-- C5: no retention run, dry or live, ever issues a DELETE against a
denylisted or append-only-protected table; an unreadable or invalid policy
table name, an empty enabled policy set, or an enabled policy targeting a
protected table makes enforce fail with no DELETE executed; and a failing
dry-run makes the orchestrator startup model fail without reaching Running. -/
theorem spec_C5_retention_protection :
    (∀ (cfg : RetentionEnforcerConfig) (db : RetentionDb) (dry_run : Bool),
      ∀ t ∈ (enforce cfg db dry_run).deletes, t ∉ DENYLIST_TABLES ∧ t ∉ db.appendOnly) ∧
    (∀ (cfg : RetentionEnforcerConfig) (db : RetentionDb) (dry_run : Bool),
      policy_set_invalid db = true →
        (enforce cfg db dry_run).ok = false ∧ (enforce cfg db dry_run).deletes = []) ∧
    (∀ (env : StartupEnv) (rdb : RetentionDb),
      (enforce env.retention_cfg rdb true).ok = false →
        (startup env rdb).ok = false ∧ (startup env rdb).final_state ≠ .Running) := by
  refine ⟨?_, ?_, ?_⟩
  · intro cfg db dry_run
    unfold enforce
    cases hfetch : fetch_enabled_policies db with
    | none => simp
    | some pols =>
      dsimp only
      split_ifs <;> try simp
      exact enforce_tables_mem cfg db dry_run pols [] (by simp)
  · intro cfg db dry_run hinv
    unfold policy_set_invalid at hinv
    unfold enforce
    cases hfetch : fetch_enabled_policies db with
    | none => simp
    | some pols =>
      rw [hfetch] at hinv
      simp only [Bool.or_eq_true] at hinv
      by_cases he : pols.isEmpty
      · simp [he]
      by_cases hd : pols.any (fun p => p.1.as_fqn ∈ DENYLIST_TABLES)
      · simp [he, hd]
      by_cases ha : pols.any (fun p => p.1.as_fqn ∈ db.appendOnly)
      · simp [he, hd, ha]
      exfalso
      rcases hinv with he2 | hany
      · exact he he2
      simp only [List.any_eq_true, Bool.or_eq_true, decide_eq_true_eq] at hany hd ha
      obtain ⟨p, hp, hcase⟩ := hany
      rcases hcase with hh | hh
      · exact hd ⟨p, hp, hh⟩
      · exact ha ⟨p, hp, hh⟩
  · intro env rdb hfail
    exact (startup_spec env rdb).2.2.2 hfail

/-- Concrete enforcer configuration (the from_env defaults). -/
def cfg0 : RetentionEnforcerConfig :=
  { batch_size := 1000, max_batches_per_table := 200, sleep_ms_between_batches := 0 }

/-- Concrete retention database with one legitimate enabled policy. -/
def rdb_good : RetentionDb :=
  { policies_readable := true,
    policies := [{ table_name := asciiBytes "ransomeye.raw_events",
                   retention_days := 30, retention_enabled := true }],
    appendOnly := [],
    tables := [(asciiBytes "ransomeye", asciiBytes "raw_events")],
    columns := [((asciiBytes "ransomeye", asciiBytes "raw_events"),
                 [(asciiBytes "created_at", asciiBytes "timestamp with time zone")])],
    rows_older := fun _ => 5,
    delete_count := fun _ _ => 0 }

/-- Concrete retention database whose only enabled policy targets the
denylisted immutable_audit_log table. -/
def rdb_bad : RetentionDb :=
  { policies_readable := true,
    policies := [{ table_name := asciiBytes "ransomeye.immutable_audit_log",
                   retention_days := 1, retention_enabled := true }],
    appendOnly := [],
    tables := [(asciiBytes "ransomeye", asciiBytes "immutable_audit_log")],
    columns := [],
    rows_older := fun _ => 0,
    delete_count := fun _ _ => 0 }

/-- Startup environment in which every external call succeeds. -/
def env_all : StartupEnv :=
  { env_ok := true, db_config_ok := true, db_connect_ok := true,
    schema_apply_ok := true, schema_validate_ok := true, upsert_component_ok := true,
    startup_event_write_ok := true, health_write_ok := true, audit_write_ok := true,
    retention_cfg_ok := true, retention_cfg := cfg0, trust_ok := true, policy_ok := true,
    bus_cert_configured := false, bus_ok := true,
    running_health_write_ok := true, running_audit_write_ok := true }

/-- Closed instance of the C5 theorem: the live run over rdb_good deletes
only from the unprotected raw_events table, the denylisted policy of rdb_bad
makes enforce fail with no deletes, and that failure fails startup. -/
theorem spec_C5_retention_protection_witness :
    (asciiBytes "ransomeye.raw_events" ∉ DENYLIST_TABLES ∧
      asciiBytes "ransomeye.raw_events" ∉ rdb_good.appendOnly) ∧
    ((enforce cfg0 rdb_bad true).ok = false ∧ (enforce cfg0 rdb_bad true).deletes = []) ∧
    ((startup env_all rdb_bad).ok = false ∧ (startup env_all rdb_bad).final_state ≠ .Running) :=
  ⟨spec_C5_retention_protection.1 cfg0 rdb_good false (asciiBytes "ransomeye.raw_events")
      (by decide),
   spec_C5_retention_protection.2.1 cfg0 rdb_bad true (by decide),
   spec_C5_retention_protection.2.2 env_all rdb_bad (by decide)⟩

/-- Closed instance of the C6 theorem at the all-success environment, whose
startup reaches Running, discharging the gate implication. -/
theorem spec_C6_running_witness :
    all_gates_ok env_all rdb_good = true ∧
    db_init_audit_status_ok (startup env_all rdb_good).events = true ∧
    running_writes_after_transition (startup env_all rdb_good).events = true :=
  ⟨(spec_C6_running_only_after_gates env_all rdb_good).1 (by decide),
   (spec_C6_running_only_after_gates env_all rdb_good).2.1,
   (spec_C6_running_only_after_gates env_all rdb_good).2.2⟩

/-- Deception asset kinds (the allowed set). -/
inductive AssetType where
  | DecoyHost
  | DecoyService
  | CredentialLure
  | FilesystemLure
deriving DecidableEq

/-- Modelled from the spec: the Deception Asset record of section 3 (its
defining file asset.rs is not under src/). Fields the deployer reads are
carried directly; deployment_scope is carried as its JSON rendering, which is
all deploy_asset uses of it. -/
structure DeceptionAsset where
  asset_id : Str
  asset_type : AssetType
  deployment_scope_json : Str
  visibility_level : Str
  interaction_types : List Str
  destination_ip : Str
  teardown_steps : List Str
  max_lifetime : Nat
  signature : Str
  signature_hash : Str
  metadata_tags : Option (List Str)
deriving DecidableEq

/-- Deployment lifecycle states (deployer.rs:26). -/
inductive DeploymentStatus where
  | Pending
  | Active
  | Expired
  | TeardownInProgress
  | TeardownComplete
  | Failed
deriving DecidableEq

/-- Deployment record (deployer.rs:17). -/
structure DeploymentState where
  asset_id : Str
  deployed_at : Nat
  expires_at : Nat
  status : DeploymentStatus
  deployment_metadata : List (Str × Str)
deriving DecidableEq

/-- Deployment errors the modelled paths can produce. -/
inductive DecErr where
  | assetNotFound
  | overlapsProduction
deriving DecidableEq

/-- Model of DeceptionRegistry::get_asset (registry.rs:145). -/
def get_asset (reg : List (Str × DeceptionAsset)) (asset_id : Str) : Option DeceptionAsset :=
  (reg.find? (fun p => p.1 = asset_id)).map (fun p => p.2)

/-- Model of DeceptionRegistry::validate_no_production_overlap
(registry.rs:161): the source is a placeholder that always succeeds. -/
def validate_no_production_overlap (_ : DeceptionAsset) : Bool := true

/-- Model of DeceptionDeployer::is_production_ip (deployer.rs:250): the
source placeholder always answers false. -/
def is_production_ip (_ : Str) : Bool := false

/-- Model of DeceptionDeployer::is_production_port (deployer.rs:261). -/
def is_production_port (port : Nat) : Bool :=
  port ∈ [22, 80, 443, 3306, 5432, 6379, 8080, 8443]

/-- Parse decimal digit bytes as a number no larger than a u16. -/
def parseU16 (s : Str) : Option Nat :=
  if s ≠ [] ∧ s.all isDigitByte then
    let n := s.foldl (fun acc c => acc * 10 + (c - 48)) 0
    if n < 65536 then some n else none
  else none

/-- Port extraction of deploy_decoy_service (deployer.rs:181): the first
metadata tag of the form port:NNN, else zero. -/
def service_port (asset : DeceptionAsset) : Nat :=
  (((asset.metadata_tags.getD []).find? (fun t => listStarts (asciiBytes "port:") t)).bind
    (fun t => parseU16 (t.drop 5))).getD 0

/-- Replace-or-append map insertion for the active_deployments map. -/
def mapInsert (m : List (Str × DeploymentState)) (k : Str) (v : DeploymentState) :
    List (Str × DeploymentState) :=
  if (m.find? (fun p => p.1 = k)).isSome then
    m.map (fun p => if p.1 = k then (k, v) else p)
  else m ++ [(k, v)]

/-- Type-specific deployment metadata (deployer.rs:131-247): decoy hosts
check the destination ip, decoy services check the extracted port, lures
always succeed. -/
def deploy_by_type (asset : DeceptionAsset) : Except DecErr (List (Str × Str)) :=
  match asset.asset_type with
  | .DecoyHost =>
    if is_production_ip asset.destination_ip then .error .overlapsProduction
    else .ok [(asciiBytes "deployment_type", asciiBytes "decoy_host"),
              (asciiBytes "destination_ip", asset.destination_ip),
              (asciiBytes "deployment_scope", asset.deployment_scope_json)]
  | .DecoyService =>
    if is_production_port (service_port asset) then .error .overlapsProduction
    else .ok [(asciiBytes "deployment_type", asciiBytes "decoy_service"),
              (asciiBytes "port", natDecimal (service_port asset))]
  | .CredentialLure => .ok [(asciiBytes "deployment_type", asciiBytes "credential_lure")]
  | .FilesystemLure => .ok [(asciiBytes "deployment_type", asciiBytes "filesystem_lure")]

/-- Fresh deployment path of deploy_asset past the idempotency check. -/
def deploy_fresh (_reg : List (Str × DeceptionAsset))
    (deployments : List (Str × DeploymentState)) (asset_id : Str) (now : Nat)
    (asset : DeceptionAsset) : Except DecErr (DeploymentState × List (Str × DeploymentState)) :=
  if validate_no_production_overlap asset = false then .error .overlapsProduction
  else
    match deploy_by_type asset with
    | .error e => .error e
    | .ok md =>
      let st : DeploymentState :=
        { asset_id := asset_id, deployed_at := now, expires_at := now + asset.max_lifetime,
          status := .Active, deployment_metadata := md }
      .ok (st, mapInsert deployments asset_id st)

/-- Model of DeceptionDeployer::deploy_asset (deployer.rs:56): resolve the
asset, return any existing Active deployment unchanged (idempotency), else
validate overlap and type, perform the type-specific deployment and record an
Active deployment expiring max_lifetime seconds from now. -/
def deploy_asset (reg : List (Str × DeceptionAsset))
    (deployments : List (Str × DeploymentState)) (asset_id : Str) (now : Nat) :
    Except DecErr (DeploymentState × List (Str × DeploymentState)) :=
  match get_asset reg asset_id with
  | none => .error .assetNotFound
  | some asset =>
    match deployments.find? (fun p => p.1 = asset_id) with
    | some pr =>
      if pr.2.status = .Active then .ok (pr.2, deployments)
      else deploy_fresh reg deployments asset_id now asset
    | none => deploy_fresh reg deployments asset_id now asset

/-- C8: deployment is idempotent; when the deployments map holds an Active
record for the asset and the asset is registered, a repeated deploy_asset
returns exactly that record (same deployed_at, expires_at, status and
metadata) and leaves the stored map unchanged. -/
theorem spec_C8_deploy_idempotent (reg : List (Str × DeceptionAsset))
    (deployments : List (Str × DeploymentState)) (asset_id : Str) (now : Nat)
    (a : DeceptionAsset) (pr : Str × DeploymentState)
    (hreg : get_asset reg asset_id = some a)
    (hex : deployments.find? (fun p => p.1 = asset_id) = some pr)
    (hact : pr.2.status = .Active) :
    deploy_asset reg deployments asset_id now = .ok (pr.2, deployments) := by
  unfold deploy_asset
  rw [hreg, hex]
  simp [hact]

/-- Concrete registered asset for the C8 witness. -/
def asset0 : DeceptionAsset :=
  { asset_id := asciiBytes "decoy-1", asset_type := .FilesystemLure,
    deployment_scope_json := asciiBytes "{}", visibility_level := asciiBytes "low",
    interaction_types := [asciiBytes "file_access"],
    destination_ip := asciiBytes "10.0.0.9", teardown_steps := [asciiBytes "delete_file"],
    max_lifetime := 3600, signature := asciiBytes "sig", signature_hash := asciiBytes "hash",
    metadata_tags := none }

/-- Concrete Active deployment record for the C8 witness. -/
def dep0 : DeploymentState :=
  { asset_id := asciiBytes "decoy-1", deployed_at := 50, expires_at := 3650,
    status := .Active, deployment_metadata := [(asciiBytes "deployment_type",
      asciiBytes "filesystem_lure")] }

/-- Closed instance of the C8 theorem: redeploying the already Active decoy-1
returns the stored record and the unchanged map. -/
theorem spec_C8_deploy_idempotent_witness :
    deploy_asset [(asciiBytes "decoy-1", asset0)] [(asciiBytes "decoy-1", dep0)]
      (asciiBytes "decoy-1") 999 = .ok (dep0, [(asciiBytes "decoy-1", dep0)]) :=
  spec_C8_deploy_idempotent [(asciiBytes "decoy-1", asset0)] [(asciiBytes "decoy-1", dep0)]
    (asciiBytes "decoy-1") 999 asset0 (asciiBytes "decoy-1", dep0)
    (by decide) (by decide) (by decide)

/-- Deception signal record (signals.rs:18). The timestamp is carried as its
rfc3339 rendering and confidence_score as its to_string rendering: both hash
computations in the source apply exactly those renderings to the same field
values, so the byte-level fate of each signal is preserved. The metadata map
is carried as its serde_json rendering for the same reason. -/
structure DeceptionSignal where
  signal_id : Str
  asset_id : Str
  interaction_type : Str
  timestamp_rfc3339 : Str
  confidence_repr : Str
  hash : Str
  signature : Str
  metadata_json : Str
deriving DecidableEq

namespace SignalGenerator

/-- Bytes hashed by SignalGenerator::compute_signal_hash (signals.rs:102):
signal_id, asset_id, the raw interaction_type bytes, the rfc3339 timestamp,
the confidence rendering, the metadata JSON. -/
def hash_input (s : DeceptionSignal) : Str :=
  s.signal_id ++ s.asset_id ++ s.interaction_type ++ s.timestamp_rfc3339 ++
    s.confidence_repr ++ s.metadata_json

/-- Model of SignalGenerator::compute_signal_hash: lowercase hex sha256 of
its hash input. -/
def compute_signal_hash (s : DeceptionSignal) : Str := bytesToHex (sha256 (hash_input s))

/-- Hash assignment generate_signal performs before signing (signals.rs:92). -/
def set_hash (s : DeceptionSignal) : DeceptionSignal := { s with hash := compute_signal_hash s }

end SignalGenerator

namespace SignatureVerifier

/-- Bytes hashed by SignatureVerifier::compute_signal_hash (security.rs:139):
identical to the generator except that interaction_type passes through
serde_json::to_string, acquiring quotes and escapes. -/
def hash_input (s : DeceptionSignal) : Str :=
  s.signal_id ++ s.asset_id ++ jsonStringBytes s.interaction_type ++ s.timestamp_rfc3339 ++
    s.confidence_repr ++ s.metadata_json

/-- Model of SignatureVerifier::compute_signal_hash. -/
def compute_signal_hash (s : DeceptionSignal) : Str := bytesToHex (sha256 (hash_input s))

end SignatureVerifier

/-- Verification failures of verify_signal. -/
inductive VerifyErr where
  | hashMismatch
  | badSignature
deriving DecidableEq

deriving instance DecidableEq for Except

/-- Model of SignatureVerifier::verify_signal (security.rs:75): recompute the
hash and reject on mismatch with the stored hash, then decode the base64
signature, require sixty-four bytes, and defer the Ed25519 check to the
ed25519_ok oracle standing for the dalek verifier. -/
def verify_signal (ed25519_ok : Str → Str → Bool) (s : DeceptionSignal) :
    Except VerifyErr Unit :=
  let hash := SignatureVerifier.compute_signal_hash s
  if hash ≠ s.hash then .error .hashMismatch
  else
    match base64Decode s.signature with
    | none => .error .badSignature
    | some sig =>
      if sig.length ≠ 64 then .error .badSignature
      else if ed25519_ok hash s.signature then .ok () else .error .badSignature

/-- Every escaped byte yields at least one output byte. -/
theorem jsonEscapeByte_len (b : Nat) : 1 ≤ (jsonEscapeByte b).length := by
  unfold jsonEscapeByte
  split_ifs <;> simp

/-- Escaping does not shorten a string. -/
theorem jsonEscape_len (t : Str) : t.length ≤ (jsonEscape t).length := by
  induction t with
  | nil => simp [jsonEscape]
  | cons b rest ih =>
    have hb := jsonEscapeByte_len b
    have : jsonEscape (b :: rest) = jsonEscapeByte b ++ jsonEscape rest := rfl
    rw [this, List.length_append, List.length_cons]
    omega

/-- Concrete signal for the C9 counterexample. -/
def sig0 : DeceptionSignal :=
  { signal_id := asciiBytes "s-1", asset_id := asciiBytes "decoy-1",
    interaction_type := asciiBytes "file_access",
    timestamp_rfc3339 := asciiBytes "2024-01-02T03:04:05+00:00",
    confidence_repr := asciiBytes "0.9", hash := [], signature := asciiBytes "AAAA",
    metadata_json := 123 :: [125] }

/-- C9 fails: at the concrete signal sig0 the generation-side and
verification-side hashes differ, so the signal whose hash field
generate_signal sets is rejected by verify_signal with a hash mismatch, under
any Ed25519 verdict. -/
theorem spec_C9_counterexample :
    SignalGenerator.compute_signal_hash sig0 ≠ SignatureVerifier.compute_signal_hash sig0 ∧
    verify_signal (fun _ _ => true) (SignalGenerator.set_hash sig0) =
      .error .hashMismatch := by
  decide

/-- C9 amended: the two hash computations read different byte encodings: the
verifier hashes the JSON serialization of interaction_type (quoted and
escaped) where the generator hashes its raw bytes, so the hashed byte
sequences differ for every signal (the verifier input is strictly longer);
concretely, at sig0 the two sha256 hashes differ and verify_signal rejects
the generator-hashed signal with a hash mismatch. -/
theorem spec_C9_amended :
    (∀ s : DeceptionSignal,
      (SignalGenerator.hash_input s).length < (SignatureVerifier.hash_input s).length ∧
      SignalGenerator.hash_input s ≠ SignatureVerifier.hash_input s) ∧
    SignalGenerator.compute_signal_hash sig0 ≠ SignatureVerifier.compute_signal_hash sig0 ∧
    verify_signal (fun _ _ => true) (SignalGenerator.set_hash sig0) =
      .error .hashMismatch := by
  refine ⟨?_, by decide, by decide⟩
  intro s
  have hlen : (SignalGenerator.hash_input s).length < (SignatureVerifier.hash_input s).length := by
    have he := jsonEscape_len s.interaction_type
    simp only [SignalGenerator.hash_input, SignatureVerifier.hash_input, jsonStringBytes,
      List.length_append, List.length_cons]
    omega
  refine ⟨hlen, fun heq => ?_⟩
  rw [heq] at hlen
  exact lt_irrefl _ hlen

/-- Trim ASCII whitespace from the end only, the model of str::trim_end. -/
def trimEndBytes (s : Str) : Str := (s.reverse.dropWhile isWsByte).reverse

/-- The needle of extract_table_ddl_block (db.rs:749): CREATE TABLE IF NOT
EXISTS, the table name and a trailing space. -/
def needleFor (table : Str) : Str := asciiBytes "CREATE TABLE IF NOT EXISTS " ++ table ++ [32]

/-- A line starting (after leading whitespace) with the needle (db.rs:753). -/
def is_create_line (table l : Str) : Bool := listStarts (needleFor table) (l.dropWhile isWsByte)

/-- The table terminator line: trims to a closing parenthesis and semicolon
(db.rs:769). -/
def is_terminator (l : Str) : Bool := trimBytes l = [41, 59]

/-- A section marker comment line (db.rs:787). -/
def sectionMarker (l : Str) : Bool :=
  listStarts (asciiBytes "--") (trimBytes l) && hasSub (trimBytes l) (asciiBytes "====")

/-- Another CREATE TABLE IF NOT EXISTS header (db.rs:790). -/
def is_create_table_header (l : Str) : Bool :=
  listStarts (asciiBytes "CREATE TABLE IF NOT EXISTS ") (trimBytes l)

/-- A COMMENT ON statement for this table (db.rs:818). -/
def is_comment_line (table l : Str) : Bool :=
  listStarts (asciiBytes "COMMENT ON TABLE " ++ table) (trimBytes l) ||
    listStarts (asciiBytes "COMMENT ON COLUMN " ++ table ++ [46]) (trimBytes l)

/-- A CREATE INDEX IF NOT EXISTS statement on this table (db.rs:836). -/
def is_index_line (table l : Str) : Bool :=
  listStarts (asciiBytes "CREATE INDEX IF NOT EXISTS") (trimBytes l) &&
    hasSub (trimBytes l) (asciiBytes " ON " ++ table)

/-- An ALTER TABLE statement for this table (db.rs:841). -/
def is_alter_line (table l : Str) : Bool :=
  listStarts (asciiBytes "ALTER TABLE " ++ table) (trimBytes l)

/-- Some other DDL statement that stops the scan (db.rs:848). -/
def is_other_ddl (l : Str) : Bool :=
  listStarts (asciiBytes "CREATE ") (trimBytes l) ||
    listStarts (asciiBytes "ALTER ") (trimBytes l) ||
    listStarts (asciiBytes "DROP ") (trimBytes l)

/-- A line whose trim-end leaves a trailing semicolon (db.rs:826). -/
def endsSemicolon (l : Str) : Bool :=
  match (trimEndBytes l).getLast? with
  | some 59 => true
  | _ => false

/-- Drop lines before the first one starting with the needle; none when no
line matches (db.rs:751). -/
def dropBeforeCreate (table : Str) : List Str → Option (List Str)
  | [] => none
  | l :: rest =>
    if is_create_line table l then some (l :: rest) else dropBeforeCreate table rest

/-- Capture lines through the first terminator inclusive, returning the
captured block and the remainder; none when no terminator occurs
(db.rs:763). -/
def captureThrough : List Str → Option (List Str × List Str)
  | [] => none
  | l :: rest =>
    if is_terminator l then some ([l], rest)
    else (captureThrough rest).map (fun p => (l :: p.1, p.2))

/-- The COMMENT continuation loop (db.rs:823): push lines through the first
one with a trailing semicolon, returning the pushed lines and the
remainder. -/
def commentSpan : List Str → List Str × List Str
  | [] => ([], [])
  | l :: rest =>
    if endsSemicolon l then ([l], rest)
    else
      let p := commentSpan rest
      (l :: p.1, p.2)

/-- The comment continuation consumes no more than the input. -/
theorem commentSpan_len (ls : List Str) : (commentSpan ls).2.length ≤ ls.length := by
  induction ls with
  | nil => simp [commentSpan]
  | cons l rest ih =>
    simp only [commentSpan]
    split
    · simp
    · simpa using Nat.le_succ_of_le ih

/-- Dropping a prefix by predicate never lengthens a list. -/
theorem dropWhile_length_le {α : Type} (p : α → Bool) (ls : List α) :
    (ls.dropWhile p).length ≤ ls.length := by
  induction ls with
  | nil => simp
  | cons a t ih =>
    rw [List.dropWhile_cons]
    split
    · exact Nat.le_succ_of_le ih
    · simp

/-- The related-statement scan after the table block (db.rs:782): stop at a
section marker, another CREATE TABLE header or other unrelated DDL; keep a
single blank separator when related statements continue past blanks; include
COMMENT ON statements for the table with their continuation lines, CREATE
INDEX IF NOT EXISTS statements on the table and ALTER TABLE statements for
the table; skip other noise lines. -/
def related_scan (table : Str) : List Str → List Str
  | [] => []
  | l :: rest =>
    if sectionMarker l then []
    else if is_create_table_header l then []
    else if trimBytes l = [] then
      match hr : rest.dropWhile (fun x => trimBytes x = []) with
      | [] => []
      | nxt :: t =>
        if sectionMarker nxt then []
        else if is_create_table_header nxt then []
        else [] :: related_scan table (nxt :: t)
    else if is_comment_line table l then
      l :: ((commentSpan rest).1 ++ related_scan table (commentSpan rest).2)
    else if is_index_line table l then l :: related_scan table rest
    else if is_alter_line table l then l :: related_scan table rest
    else if is_other_ddl l then []
    else related_scan table rest
termination_by ls => ls.length
decreasing_by
  · have hd := dropWhile_length_le (fun x => decide (trimBytes x = [])) rest
    rw [hr] at hd
    simpa using Nat.lt_succ_of_le hd
  · have := commentSpan_len rest
    simpa using Nat.lt_succ_of_le this
  · simp
  · simp
  · simp

/-- Extraction failure kinds of extract_table_ddl_block. -/
inductive DdlErr where
  | noCreateTable
  | noTableEnd
deriving DecidableEq

/-- Model of extract_table_ddl_block (db.rs:747): find the first CREATE TABLE
IF NOT EXISTS line for the table (error when absent), capture through the
terminating close-paren-semicolon line (error when absent), then append the
related-statement scan of the remaining lines. -/
def extract_table_ddl_block (lines : List Str) (table : Str) : Except DdlErr (List Str) :=
  match dropBeforeCreate table lines with
  | none => .error .noCreateTable
  | some suffix =>
    match captureThrough suffix with
    | none => .error .noTableEnd
    | some (block, rest) => .ok (block ++ related_scan table rest)

/-- A matched prefix is the take of its length. -/
theorem listStarts_take (p x : Str) (h : listStarts p x = true) : x.take p.length = p := by
  induction p generalizing x with
  | nil => simp
  | cons a ps ih =>
    cases x with
    | nil => simp [listStarts] at h
    | cons b t =>
      simp only [listStarts, Bool.and_eq_true, decide_eq_true_eq] at h
      obtain ⟨h1, h2⟩ := h
      subst h1
      simp only [List.length_cons, List.take_succ_cons, ih t h2]

/-- A prefix of a matched prefix also matches. -/
theorem listStarts_append_left (p q x : Str) (h : listStarts (p ++ q) x = true) :
    listStarts p x = true := by
  induction p generalizing x with
  | nil => rfl
  | cons a ps ih =>
    cases x with
    | nil => simp [listStarts] at h
    | cons b t =>
      simp only [List.cons_append, listStarts, Bool.and_eq_true] at h ⊢
      exact ⟨h.1, ih t h.2⟩

/-- Two prefixes of the same string agree on any common length; prefixes
differing there cannot both match. -/
theorem listStarts_conflict (p q x : Str) (hp : listStarts p x = true)
    (hq : listStarts q x = true) (k : Nat) (hkp : k ≤ p.length) (hkq : k ≤ q.length)
    (hne : p.take k ≠ q.take k) : False := by
  apply hne
  have hp' := listStarts_take p x hp
  have hq' := listStarts_take q x hq
  calc p.take k = (x.take p.length).take k := by rw [hp']
    _ = x.take k := by rw [List.take_take, Nat.min_eq_left hkp]
    _ = (x.take q.length).take k := by rw [List.take_take, Nat.min_eq_left hkq]
    _ = q.take k := by rw [hq']

/-- A COMMENT ON line for any table starts with COMMENT ON. -/
theorem comment_starts (table l : Str) (h : is_comment_line table l = true) :
    listStarts (asciiBytes "COMMENT ON ") (trimBytes l) = true := by
  simp only [is_comment_line, Bool.or_eq_true] at h
  rcases h with h | h
  · have hlit : asciiBytes "COMMENT ON TABLE " =
        asciiBytes "COMMENT ON " ++ asciiBytes "TABLE " := by decide
    rw [hlit, List.append_assoc] at h
    exact listStarts_append_left _ _ _ h
  · have hlit : asciiBytes "COMMENT ON COLUMN " =
        asciiBytes "COMMENT ON " ++ asciiBytes "COLUMN " := by decide
    rw [hlit, List.append_assoc, List.append_assoc] at h
    exact listStarts_append_left _ _ _ h

/-- An ALTER TABLE line for any table starts with ALTER TABLE. -/
theorem alter_starts (table l : Str) (h : is_alter_line table l = true) :
    listStarts (asciiBytes "ALTER TABLE ") (trimBytes l) = true := by
  unfold is_alter_line at h
  exact listStarts_append_left _ _ _ h

/-- No create line in the input makes the search fail. -/
theorem dropBeforeCreate_none (table : Str) (lines : List Str)
    (h : ∀ l ∈ lines, is_create_line table l = false) :
    dropBeforeCreate table lines = none := by
  induction lines with
  | nil => rfl
  | cons l rest ih =>
    have h0 := h l (List.mem_cons_self l rest)
    simp only [dropBeforeCreate, h0, Bool.false_eq_true, if_false]
    exact ih (fun x hx => h x (List.mem_cons_of_mem l hx))

/-- The search returns the suffix at the first create line. -/
theorem dropBeforeCreate_found (table : Str) (pre : List Str) (c : Str) (tail : List Str)
    (hpre : ∀ l ∈ pre, is_create_line table l = false) (hc : is_create_line table c = true) :
    dropBeforeCreate table (pre ++ c :: tail) = some (c :: tail) := by
  induction pre with
  | nil => simp [dropBeforeCreate, hc]
  | cons l rest ih =>
    have h0 := hpre l (List.mem_cons_self l rest)
    simp only [List.cons_append, dropBeforeCreate, h0, Bool.false_eq_true, if_false]
    exact ih (fun x hx => hpre x (List.mem_cons_of_mem l hx))

/-- No terminator in the input makes the capture fail. -/
theorem captureThrough_none (ls : List Str) (h : ∀ l ∈ ls, is_terminator l = false) :
    captureThrough ls = none := by
  induction ls with
  | nil => rfl
  | cons l rest ih =>
    have h0 := h l (List.mem_cons_self l rest)
    simp only [captureThrough, h0, Bool.false_eq_true, if_false]
    rw [ih (fun x hx => h x (List.mem_cons_of_mem l hx))]
    rfl

/-- The capture takes exactly the lines through the first terminator. -/
theorem captureThrough_split (body : List Str) (term : Str) (rest : List Str)
    (hbody : ∀ l ∈ body, is_terminator l = false) (hterm : is_terminator term = true) :
    captureThrough (body ++ term :: rest) = some (body ++ [term], rest) := by
  induction body with
  | nil => simp [captureThrough, hterm]
  | cons l b ih =>
    have h0 := hbody l (List.mem_cons_self l b)
    simp only [List.cons_append, captureThrough, h0, Bool.false_eq_true, if_false,
      List.append_eq, ih (fun x hx => hbody x (List.mem_cons_of_mem l hx)), Option.map_some]
    rfl

/-- A section marker stops the related-statement scan. -/
theorem related_scan_marker (table l : Str) (rest : List Str) (h : sectionMarker l = true) :
    related_scan table (l :: rest) = [] := by
  unfold related_scan
  simp [h]

/-- Another CREATE TABLE header stops the related-statement scan. -/
theorem related_scan_header (table l : Str) (rest : List Str)
    (h : is_create_table_header l = true) : related_scan table (l :: rest) = [] := by
  unfold is_create_table_header at h
  have hm : sectionMarker l = false := by
    cases hst : listStarts (asciiBytes "--") (trimBytes l)
    · simp [sectionMarker, hst]
    · exact ((listStarts_conflict _ _ _ hst h 1 (by decide) (by decide) (by decide)).elim)
  unfold related_scan
  simp [hm, is_create_table_header, h]

/-- A COMMENT ON statement for the table is included with its continuation
lines, and the scan resumes after them. -/
theorem related_scan_comment (table l : Str) (rest : List Str)
    (h : is_comment_line table l = true) :
    related_scan table (l :: rest) =
      l :: ((commentSpan rest).1 ++ related_scan table (commentSpan rest).2) := by
  have hco := comment_starts table l h
  have hm : sectionMarker l = false := by
    cases hst : listStarts (asciiBytes "--") (trimBytes l)
    · simp [sectionMarker, hst]
    · exact ((listStarts_conflict _ _ _ hst hco 1 (by decide) (by decide) (by decide)).elim)
  have hh : is_create_table_header l = false := by
    cases hst : listStarts (asciiBytes "CREATE TABLE IF NOT EXISTS ") (trimBytes l)
    · simp [is_create_table_header, hst]
    · exact ((listStarts_conflict _ _ _ hst hco 2 (by decide) (by decide) (by decide)).elim)
  have hb : ¬(trimBytes l = []) := by
    intro hbl
    rw [hbl] at hco
    exact absurd hco (by decide)
  conv_lhs => rw [related_scan.eq_def]
  simp [hm, hh, hb, h]

/-- A CREATE INDEX IF NOT EXISTS statement on the table is included and the
scan continues. -/
theorem related_scan_index (table l : Str) (rest : List Str)
    (h : is_index_line table l = true) :
    related_scan table (l :: rest) = l :: related_scan table rest := by
  have hil : listStarts (asciiBytes "CREATE INDEX IF NOT EXISTS") (trimBytes l) = true := by
    unfold is_index_line at h
    cases hst : listStarts (asciiBytes "CREATE INDEX IF NOT EXISTS") (trimBytes l)
    · rw [hst] at h
      simp at h
    · rfl
  have hm : sectionMarker l = false := by
    cases hst : listStarts (asciiBytes "--") (trimBytes l)
    · simp [sectionMarker, hst]
    · exact ((listStarts_conflict _ _ _ hst hil 1 (by decide) (by decide) (by decide)).elim)
  have hh : is_create_table_header l = false := by
    cases hst : listStarts (asciiBytes "CREATE TABLE IF NOT EXISTS ") (trimBytes l)
    · simp [is_create_table_header, hst]
    · exact ((listStarts_conflict _ _ _ hst hil 8 (by decide) (by decide) (by decide)).elim)
  have hb : ¬(trimBytes l = []) := by
    intro hbl
    rw [hbl] at hil
    exact absurd hil (by decide)
  have hc : is_comment_line table l = false := by
    cases hic : is_comment_line table l
    · rfl
    · have hco := comment_starts table l hic
      exact ((listStarts_conflict _ _ _ hco hil 2 (by decide) (by decide) (by decide)).elim)
  conv_lhs => rw [related_scan.eq_def]
  simp [hm, hh, hb, hc, h]

/-- An ALTER TABLE statement for the table is included and the scan
continues. -/
theorem related_scan_alter (table l : Str) (rest : List Str)
    (h : is_alter_line table l = true) :
    related_scan table (l :: rest) = l :: related_scan table rest := by
  have hal := alter_starts table l h
  have hm : sectionMarker l = false := by
    cases hst : listStarts (asciiBytes "--") (trimBytes l)
    · simp [sectionMarker, hst]
    · exact ((listStarts_conflict _ _ _ hst hal 1 (by decide) (by decide) (by decide)).elim)
  have hh : is_create_table_header l = false := by
    cases hst : listStarts (asciiBytes "CREATE TABLE IF NOT EXISTS ") (trimBytes l)
    · simp [is_create_table_header, hst]
    · exact ((listStarts_conflict _ _ _ hst hal 1 (by decide) (by decide) (by decide)).elim)
  have hb : ¬(trimBytes l = []) := by
    intro hbl
    rw [hbl] at hal
    exact absurd hal (by decide)
  have hc : is_comment_line table l = false := by
    cases hic : is_comment_line table l
    · rfl
    · have hco := comment_starts table l hic
      exact ((listStarts_conflict _ _ _ hco hal 1 (by decide) (by decide) (by decide)).elim)
  have hi : is_index_line table l = false := by
    cases hix : is_index_line table l
    · rfl
    · have hil : listStarts (asciiBytes "CREATE INDEX IF NOT EXISTS") (trimBytes l) = true := by
        unfold is_index_line at hix
        cases hst : listStarts (asciiBytes "CREATE INDEX IF NOT EXISTS") (trimBytes l)
        · rw [hst] at hix
          simp at hix
        · rfl
      exact ((listStarts_conflict _ _ _ hil hal 1 (by decide) (by decide) (by decide)).elim)
  conv_lhs => rw [related_scan.eq_def]
  simp [hm, hh, hb, hc, hi, h]

/-- C7: the DDL extractor finds the first line beginning CREATE TABLE IF NOT
EXISTS for the table and captures every line through the terminating
close-paren line, erroring when either is absent; the following related scan
includes COMMENT ON statements for the table (with continuation lines),
CREATE INDEX IF NOT EXISTS statements on the table and ALTER TABLE statements
for the table, and stops at a section marker comment or another CREATE TABLE
IF NOT EXISTS line. -/
theorem spec_C7_ddl_extraction :
    (∀ (table : Str) (lines : List Str),
      (∀ l ∈ lines, is_create_line table l = false) →
      extract_table_ddl_block lines table = .error .noCreateTable) ∧
    (∀ (table c : Str) (pre body : List Str),
      (∀ l ∈ pre, is_create_line table l = false) →
      is_create_line table c = true →
      (∀ l ∈ c :: body, is_terminator l = false) →
      extract_table_ddl_block (pre ++ c :: body) table = .error .noTableEnd) ∧
    (∀ (table c term : Str) (pre body rest : List Str),
      (∀ l ∈ pre, is_create_line table l = false) →
      is_create_line table c = true →
      (∀ l ∈ c :: body, is_terminator l = false) →
      is_terminator term = true →
      extract_table_ddl_block (pre ++ c :: (body ++ term :: rest)) table =
        .ok (((c :: body) ++ [term]) ++ related_scan table rest)) ∧
    (∀ (table l : Str) (rest : List Str),
      sectionMarker l = true → related_scan table (l :: rest) = []) ∧
    (∀ (table l : Str) (rest : List Str),
      is_create_table_header l = true → related_scan table (l :: rest) = []) ∧
    (∀ (table l : Str) (rest : List Str),
      is_comment_line table l = true →
      related_scan table (l :: rest) =
        l :: ((commentSpan rest).1 ++ related_scan table (commentSpan rest).2)) ∧
    (∀ (table l : Str) (rest : List Str),
      is_index_line table l = true →
      related_scan table (l :: rest) = l :: related_scan table rest) ∧
    (∀ (table l : Str) (rest : List Str),
      is_alter_line table l = true →
      related_scan table (l :: rest) = l :: related_scan table rest) := by
  refine ⟨?_, ?_, ?_, related_scan_marker, related_scan_header, related_scan_comment,
    related_scan_index, related_scan_alter⟩
  · intro table lines h
    unfold extract_table_ddl_block
    rw [dropBeforeCreate_none table lines h]
  · intro table c pre body hpre hc hterm
    unfold extract_table_ddl_block
    rw [dropBeforeCreate_found table pre c body hpre hc]
    dsimp only
    rw [captureThrough_none (c :: body) hterm]
  · intro table c term pre body rest hpre hc hbody hterm
    unfold extract_table_ddl_block
    rw [dropBeforeCreate_found table pre c (body ++ term :: rest) hpre hc]
    dsimp only
    have hshape : c :: (body ++ term :: rest) = (c :: body) ++ term :: rest := rfl
    rw [hshape, captureThrough_split (c :: body) term rest hbody hterm]

/-- Concrete schema lines for the C7 witness. -/
def table0 : Str := asciiBytes "raw_events"

/-- A heading comment before the table block. -/
def pre0 : List Str := [asciiBytes "-- ingestion tables"]

/-- The CREATE TABLE line of the witness schema. -/
def c0 : Str := asciiBytes "CREATE TABLE IF NOT EXISTS raw_events ("

/-- The column lines of the witness schema. -/
def body0 : List Str := [asciiBytes "  raw_event_id BIGINT,", asciiBytes "  payload_sha256 BYTEA"]

/-- The table terminator line of the witness schema. -/
def term0 : Str := asciiBytes ");"

/-- The lines following the table block in the witness schema. -/
def rest0 : List Str :=
  [asciiBytes "CREATE INDEX IF NOT EXISTS idx_raw ON raw_events (raw_event_id);"]

/-- Closed instance of the C7 theorem: extraction on a concrete schema
captures the table block plus the related scan of the remainder, a schema
with no create line errors, and the related scan includes the concrete index
line and stops at a concrete section marker. -/
theorem spec_C7_ddl_extraction_witness :
    extract_table_ddl_block (pre0 ++ c0 :: (body0 ++ term0 :: rest0)) table0 =
      .ok (((c0 :: body0) ++ [term0]) ++ related_scan table0 rest0) ∧
    extract_table_ddl_block [asciiBytes "SELECT 1;"] table0 = .error .noCreateTable ∧
    related_scan table0 (asciiBytes "-- ==== SECTION ====" :: rest0) = [] ∧
    related_scan table0 rest0 =
      (asciiBytes "CREATE INDEX IF NOT EXISTS idx_raw ON raw_events (raw_event_id);") ::
        related_scan table0 [] :=
  ⟨spec_C7_ddl_extraction.2.2.1 table0 c0 term0 pre0 body0 rest0
      (by decide) (by decide) (by decide) (by decide),
   spec_C7_ddl_extraction.1 table0 [asciiBytes "SELECT 1;"] (by decide),
   spec_C7_ddl_extraction.2.2.2.1 table0 (asciiBytes "-- ==== SECTION ====") rest0 (by decide),
   spec_C7_ddl_extraction.2.2.2.2.2.2.1 table0
     (asciiBytes "CREATE INDEX IF NOT EXISTS idx_raw ON raw_events (raw_event_id);") []
     (by decide)⟩

end Ransomeye
